import Mathlib

/-!
# Exynos DRM plane helpers (`drivers/gpu/drm/exynos/exynos_drm_plane.c`)

A shallow embedding of the plane commit pipeline: the geometry clipper
(`exynos_plane_get_size`, `exynos_sanitize_plane_coords`), the plane record with
its update lock, and the update / commit / finish / disable / freeze / thaw
helpers, followed by theorems about them.

Conventions of the embedding.

* C `int` values are `Int` and C `unsigned` / `uint32_t` values are `Nat`; every
  conversion and every wrapping operation of the C code is written out with an
  explicit reduction modulo `2^32 = 4294967296`.
* The declarations of `struct exynos_drm_plane`, `struct drm_crtc` and
  `struct drm_pending_vblank_event` live in headers; the fields used by this
  file are given the types of the arguments of
  `exynos_plane_helper_update_plane` that are stored into them (`crtc_x`,
  `crtc_y` are `int`; the widths, heights and source coordinates are
  32-bit unsigned) and `hdisplay`, `vdisplay`, `id` are `int`.
* Collaborators outside the file (allocator, KDS, the hardware callbacks, the
  frame buffer reference counter) are represented by their observable effect:
  an entry in the call log, a change of a reference count, and a result taken
  from the environment record `kernel_env`.
-/

namespace ExynosPlane

/-! ## Machine integers -/

/-- Conversion of a C integer to `unsigned` (32 bits): reduction modulo `2^32`. -/
def to_u32 (i : Int) : Nat := (i % 4294967296).toNat

/-- Conversion of a 32-bit unsigned value to `int` (two's complement wrap). -/
def to_s32 (n : Nat) : Int :=
  if n % 4294967296 < 2147483648 then ((n % 4294967296 : Nat) : Int)
  else ((n % 4294967296 : Nat) : Int) - 4294967296

/-! ## Geometry clipper -/

/-- Source function `exynos_plane_get_size(int start, unsigned length, unsigned last)`.
`start + length` is an unsigned addition converted back to `int`; both `min_t`
are taken on `unsigned` values and the result is stored into the `int size`;
`start <= last` and `last - start` are evaluated on `unsigned` operands. -/
def exynos_plane_get_size (start : Int) (length last : Nat) : Int :=
  let end_ : Int := to_s32 ((to_u32 start + length) % 4294967296)
  if start ≤ 0 then
    if end_ > 0 then to_s32 (min (to_u32 end_) last) else 0
  else if to_u32 start ≤ last then
    to_s32 (min ((last + 4294967296 - to_u32 start) % 4294967296) length)
  else 0

/-- The visible length in the words of the specification, section 4.1: with
`end = start + length`, it is `min(end, extent)` when
`start <= 0` and `end > 0`, `0` when `start <= 0` and `end <= 0`,
`min(extent - start, length)` when `0 < start <= extent`, and `0` otherwise.
Plain integers, no wraparound. -/
def visible_length_spec (start length extent : Int) : Int :=
  let end_ := start + length
  if start ≤ 0 then
    if end_ > 0 then min end_ extent else 0
  else if start ≤ extent then min (extent - start) length
  else 0

/-! ## Data model -/

/-- The fields of `struct drm_crtc` read by this file: the pipe number `id`
and the active mode's `hdisplay` and `vdisplay`. -/
structure drm_crtc where
  id : Int
  hdisplay : Int
  vdisplay : Int
deriving DecidableEq, Repr

/-- A completion request (`struct drm_pending_vblank_event`): `user_data`
identifies the request, the other fields are stamped on delivery. -/
structure drm_pending_vblank_event where
  user_data : Nat
  pipe : Int
  sequence : Nat
  tv_sec : Int
  tv_usec : Int
deriving DecidableEq, Repr

/-- The fields of `struct exynos_drm_plane` (and of its `base`) used by this
file. Frame buffers are named by a number; `none` is the `NULL` pointer.
`kds` is true when the resource-set pointer is not `NULL`, `kds_cb_user_cb`
when `kds_cb.user_cb` is not `NULL`. -/
structure exynos_drm_plane where
  crtc : Option drm_crtc
  ctx : Nat
  crtc_x : Int
  crtc_y : Int
  crtc_w : Nat
  crtc_h : Nat
  src_x : Nat
  src_y : Nat
  src_w : Nat
  src_h : Nat
  fb : Option Nat
  pending_fb : Option Nat
  pending_event : Option drm_pending_vblank_event
  pending_lock : Bool
  kds : Bool
  kds_cb_user_cb : Bool
deriving DecidableEq, Repr

/-- The correlation record `struct kds_callback_cookie`; the plane it points
to is the one plane of the model. -/
structure kds_callback_cookie where
  crtc : drm_crtc
  fb : Nat
deriving DecidableEq, Repr

/-- Calls that leave the file, in the order they are made. -/
inductive ext_call where
  | kzalloc
  | kfree
  | drm_framebuffer_reference (fb : Nat)
  | drm_framebuffer_unreference (fb : Nat)
  | commit_plane (crtc : Int) (fb : Nat)
  | disable_plane
  | kds_callback_init
  | kds_callback_term
  | exynos_drm_fb_attach_dma_buf (fb : Nat)
  | kds_async_waitall (cookie : kds_callback_cookie)
  | kds_resource_set_release
  | wake_up_interruptible
  | WARN_ON
deriving DecidableEq, Repr

/-- What the surroundings answer during one call into the file. -/
structure kernel_env where
  /-- Whether `CONFIG_DMA_SHARED_BUFFER_USES_KDS` is set. -/
  config_kds : Bool
  /-- Whether `kzalloc` returns a record. -/
  kzalloc_ok : Bool
  /-- Whether the frame buffer's GEM object has a `dma_buf`. -/
  dma_buf : Nat → Bool
  /-- Result of `kds_callback_init`. -/
  kds_callback_init_ret : Int
  /-- Result of `kds_async_waitall`; when it is not zero nothing was registered. -/
  kds_async_waitall_ret : Int
  /-- Result of the hardware `disable_plane`. -/
  disable_plane_ret : Int
  /-- Clock read by `do_gettimeofday`. -/
  now_sec : Int
  now_usec : Int

/-- The plane together with the state of its collaborators: the reference
count of every frame buffer, the requester's event queue, and the log of
outgoing calls. -/
structure drm_state where
  plane : exynos_drm_plane
  refcount : Nat → Int
  event_list : List drm_pending_vblank_event
  calls : List ext_call

/-- Ways in which a call does not return. -/
inductive halt where
  /-- `mutex_lock` on a mutex that is held: the caller sleeps. -/
  | blocked
  /-- A `BUG_ON` fired. -/
  | bug
deriving DecidableEq, Repr

/-- The errno value behind `-ENOMEM`. -/
def ENOMEM : Int := 12

/-! ## Collaborators -/

/-- Appends one outgoing call to the log. -/
def log_call (s : drm_state) (c : ext_call) : drm_state :=
  { s with calls := s.calls ++ [c] }

/-- Kernel `mutex_lock(&exynos_plane->pending_lock)`. -/
def mutex_lock (s : drm_state) : Except halt drm_state :=
  if s.plane.pending_lock then .error .blocked
  else .ok { s with plane := { s.plane with pending_lock := true } }

/-- Kernel `mutex_unlock(&exynos_plane->pending_lock)`. -/
def mutex_unlock (s : drm_state) : drm_state :=
  { s with plane := { s.plane with pending_lock := false } }

/-- The statement `WARN_ON(!mutex_is_locked(&exynos_plane->pending_lock))`. -/
def warn_on_unlocked (s : drm_state) : drm_state :=
  if s.plane.pending_lock then s else log_call s .WARN_ON

/-- DRM `drm_framebuffer_reference`: one more reference on `fb`. -/
def drm_framebuffer_reference (s : drm_state) (fb : Nat) : drm_state :=
  log_call { s with refcount := Function.update s.refcount fb (s.refcount fb + 1) }
    (.drm_framebuffer_reference fb)

/-- DRM `drm_framebuffer_unreference`: one reference less on `fb`. -/
def drm_framebuffer_unreference (s : drm_state) (fb : Nat) : drm_state :=
  log_call { s with refcount := Function.update s.refcount fb (s.refcount fb - 1) }
    (.drm_framebuffer_unreference fb)

/-! ## The functions of the file -/

/-- Source function `exynos_sanitize_plane_coords`. The `int` results of
`exynos_plane_get_size` are stored into the unsigned `crtc_w`, `crtc_h`;
`src_x -= crtc_x` is an unsigned subtraction. -/
def exynos_sanitize_plane_coords (p : exynos_drm_plane) (crtc : drm_crtc) :
    exynos_drm_plane :=
  let w := exynos_plane_get_size p.crtc_x p.crtc_w (to_u32 crtc.hdisplay)
  let p : exynos_drm_plane := { p with crtc_w := to_u32 w }
  let h := exynos_plane_get_size p.crtc_y p.crtc_h (to_u32 crtc.vdisplay)
  let p : exynos_drm_plane := { p with crtc_h := to_u32 h }
  let p : exynos_drm_plane :=
    if p.crtc_x < 0 then
      let p : exynos_drm_plane := if p.crtc_w > 0 then
          { p with src_x := (p.src_x + 4294967296 - to_u32 p.crtc_x) % 4294967296 }
        else p
      { p with crtc_x := 0 }
    else p
  let p : exynos_drm_plane :=
    if p.crtc_y < 0 then
      let p : exynos_drm_plane := if p.crtc_h ≠ 0 then
          { p with src_y := (p.src_y + 4294967296 - to_u32 p.crtc_y) % 4294967296 }
        else p
      { p with crtc_y := 0 }
    else p
  let p : exynos_drm_plane := { p with src_w := min p.src_w p.crtc_w }
  { p with src_h := min p.src_h p.crtc_h }

/-- Source function `exynos_plane_copy_state(src, dst)`. -/
def exynos_plane_copy_state (src dst : exynos_drm_plane) : exynos_drm_plane :=
  { dst with
    ctx := src.ctx
    crtc_x := src.crtc_x
    crtc_y := src.crtc_y
    crtc_w := src.crtc_w
    crtc_h := src.crtc_h
    src_x := src.src_x
    src_y := src.src_y
    src_w := src.src_w
    src_h := src.src_h }

/-- Source function `exynos_plane_update`. Returns the status and the new
state; `plane_commit_cb` is the callback argument. When
`kds_async_waitall` succeeds the wait is registered (the resource set pointer
is set) and the callback runs later, outside this call. -/
def exynos_plane_update (env : kernel_env) (s : drm_state) (crtc : drm_crtc)
    (fb : Nat) (plane_commit_cb : drm_state → kds_callback_cookie → drm_state) :
    Except halt (Int × drm_state) :=
  let s : drm_state := warn_on_unlocked s
  let s : drm_state := log_call s .kzalloc
  if !env.kzalloc_ok then .ok (-ENOMEM, s)
  else
    let cookie : kds_callback_cookie := { crtc := crtc, fb := fb }
    let s : drm_state := drm_framebuffer_reference s fb
    if !env.config_kds then .ok (0, plane_commit_cb s cookie)
    else if s.plane.kds then .error .bug
    else if !env.dma_buf fb then .ok (0, plane_commit_cb s cookie)
    else
      let s : drm_state := log_call s .kds_callback_init
      let ret := env.kds_callback_init_ret
      if ret ≠ 0 then .ok (ret, s)
      else
        let s : drm_state := { s with plane := { s.plane with kds_cb_user_cb := true } }
        let s : drm_state := log_call s (.exynos_drm_fb_attach_dma_buf fb)
        let s : drm_state := log_call s (.kds_async_waitall cookie)
        let ret := env.kds_async_waitall_ret
        if ret ≠ 0 then .ok (ret, s)
        else .ok (0, { s with plane := { s.plane with kds := true } })

/-- Source function `exynos_drm_crtc_send_event`. -/
def exynos_drm_crtc_send_event (env : kernel_env) (s : drm_state) (pipe : Int) :
    drm_state :=
  match s.plane.pending_event with
  | none => s
  | some event =>
    let event := { event with
      pipe := pipe, sequence := 0, tv_sec := env.now_sec, tv_usec := env.now_usec }
    let s : drm_state := { s with event_list := s.event_list ++ [event] }
    let s : drm_state := log_call s .wake_up_interruptible
    { s with plane := { s.plane with pending_event := none } }

/-- Source function `exynos_plane_helper_finish_update`. -/
def exynos_plane_helper_finish_update (env : kernel_env) (s : drm_state)
    (pipe : Int) : drm_state :=
  let s : drm_state := warn_on_unlocked s
  let old_fb := s.plane.fb
  let s : drm_state :=
    if env.config_kds then
      let s : drm_state := if s.plane.kds then
          { log_call s .kds_resource_set_release with
            plane := { s.plane with kds := false } }
        else s
      if s.plane.kds_cb_user_cb then log_call s .kds_callback_term else s
    else s
  let s : drm_state := { s with plane := { s.plane with fb := s.plane.pending_fb } }
  let s : drm_state := { s with plane := { s.plane with pending_fb := none } }
  let s : drm_state := if pipe ≥ 0 then exynos_drm_crtc_send_event env s pipe else s
  let s : drm_state := match old_fb with
    | some old => drm_framebuffer_unreference s old
    | none => s
  mutex_unlock s

/-- Source function `exynos_plane_helper_commit_cb`. -/
def exynos_plane_helper_commit_cb (env : kernel_env) (s : drm_state)
    (cookie : kds_callback_cookie) : drm_state :=
  let fb := cookie.fb
  let crtc := cookie.crtc
  let s : drm_state := warn_on_unlocked s
  let s : drm_state := log_call s (.commit_plane crtc.id fb)
  let s : drm_state := { s with plane := { s.plane with pending_fb := some fb } }
  let s : drm_state := if s.plane.fb = some fb then
      exynos_plane_helper_finish_update env s crtc.id
    else s
  log_call s .kfree

/-- Source function `exynos_plane_helper_freeze_plane`. -/
def exynos_plane_helper_freeze_plane (env : kernel_env) (s : drm_state) :
    Except halt (Int × drm_state) := do
  let s ← mutex_lock s
  let s : drm_state := log_call s .disable_plane
  let ret := env.disable_plane_ret
  let s : drm_state := mutex_unlock s
  return (ret, s)

/-- Source function `exynos_plane_helper_thaw_plane`. -/
def exynos_plane_helper_thaw_plane (s : drm_state) (crtc : drm_crtc) :
    Except halt drm_state := do
  let s ← mutex_lock s
  match s.plane.fb with
  | some fb =>
    let s : drm_state := log_call s (.commit_plane crtc.id fb)
    let s : drm_state := drm_framebuffer_reference s fb
    return { s with plane := { s.plane with pending_fb := some fb } }
  | none => return mutex_unlock s

/-- Source function `exynos_plane_helper_update_plane`. The snapshot
`old_plane` is taken before the lock. -/
def exynos_plane_helper_update_plane (env : kernel_env) (s : drm_state)
    (crtc : drm_crtc) (fb : Nat) (crtc_x crtc_y : Int) (crtc_w crtc_h : Nat)
    (src_x src_y src_w src_h : Nat) : Except halt (Int × drm_state) := do
  let old_plane := exynos_plane_copy_state s.plane s.plane
  let s ← mutex_lock s
  let p := { s.plane with
    crtc_x := crtc_x
    crtc_y := crtc_y
    crtc_w := crtc_w
    crtc_h := crtc_h
    src_x := src_x / 65536
    src_y := src_y / 65536
    src_w := src_w / 65536
    src_h := src_h / 65536 }
  let s : drm_state := { s with plane := exynos_sanitize_plane_coords p crtc }
  let (ret, s) ← exynos_plane_update env s crtc fb (exynos_plane_helper_commit_cb env)
  if ret ≠ 0 then
    return (ret, { s with plane := exynos_plane_copy_state old_plane s.plane })
  else
    return (ret, s)

/-- Source function `exynos_plane_helper_disable_plane`. -/
def exynos_plane_helper_disable_plane (env : kernel_env) (s : drm_state) :
    Except halt (Int × drm_state) := do
  let s ← mutex_lock s
  if s.plane.pending_fb.isSome then throw .bug
  let s : drm_state := if s.plane.fb.isSome then log_call s .disable_plane else s
  let pipe : Int := match s.plane.crtc with
    | some c => c.id
    | none => -1
  let s : drm_state := exynos_plane_helper_finish_update env s pipe
  return (0, s)

/-! ## Observations and sample values used by the statements -/

/-- The eight geometry fields of a plane. -/
def geometry (p : exynos_drm_plane) : Int × Int × Nat × Nat × Nat × Nat × Nat × Nat :=
  (p.crtc_x, p.crtc_y, p.crtc_w, p.crtc_h, p.src_x, p.src_y, p.src_w, p.src_h)

/-- The acquire and release calls of a call log, in order. -/
def ref_calls (l : List ext_call) : List ext_call :=
  l.filter fun c =>
    match c with
    | .drm_framebuffer_reference _ => true
    | .drm_framebuffer_unreference _ => true
    | _ => false

/-- A 1920x1080 display pipe. -/
def crtc_1080p : drm_crtc := { id := 0, hdisplay := 1920, vdisplay := 1080 }

/-- A plane at rest showing `fb`: lock free, nothing pending, no wait outstanding. -/
def idle_plane (fb : Option Nat) : exynos_drm_plane :=
  { crtc := none, ctx := 0, crtc_x := 0, crtc_y := 0, crtc_w := 0, crtc_h := 0,
    src_x := 0, src_y := 0, src_w := 0, src_h := 0, fb := fb, pending_fb := none,
    pending_event := none, pending_lock := false, kds := false, kds_cb_user_cb := false }

/-- The plane at rest, every frame buffer holding one reference, nothing logged. -/
def idle_state (fb : Option Nat) : drm_state :=
  { plane := idle_plane fb, refcount := fun _ => 1, event_list := [], calls := [] }

/-- KDS configured, allocation succeeds, no frame buffer carries a `dma_buf`. -/
def env_no_fence : kernel_env :=
  { config_kds := true, kzalloc_ok := true, dma_buf := fun _ => false,
    kds_callback_init_ret := 0, kds_async_waitall_ret := 0, disable_plane_ret := 0,
    now_sec := 0, now_usec := 0 }

/-- As `env_no_fence`, but `kzalloc` returns `NULL`. -/
def env_kzalloc_fails : kernel_env := { env_no_fence with kzalloc_ok := false }

/-- Every frame buffer carries a `dma_buf` and `kds_callback_init` fails. -/
def env_callback_init_fails : kernel_env :=
  { env_no_fence with dma_buf := fun _ => true, kds_callback_init_ret := -ENOMEM }

/-- Every frame buffer carries a `dma_buf` and `kds_async_waitall` fails. -/
def env_waitall_fails : kernel_env :=
  { env_no_fence with dma_buf := fun _ => true, kds_async_waitall_ret := -ENOMEM }

/-- The state left by a request for buffer 7, 64x64 at the origin, on
`idle_state shown` under `env_no_fence`: pushed to the hardware, pending, lock held. -/
def in_flight_state (shown : Option Nat) : drm_state :=
  { plane := { idle_plane shown with
      crtc_w := 64, crtc_h := 64, src_w := 64, src_h := 64,
      pending_fb := some 7, pending_lock := true }
    refcount := Function.update (fun _ => 1) 7 2
    event_list := []
    calls := [.kzalloc, .drm_framebuffer_reference 7, .commit_plane 0 7, .kfree] }

/-- The plane as `exynos_plane_helper_update_plane` hands it to
`exynos_plane_update`: locked, with the requested geometry stored and clipped. -/
def requested (s : drm_state) (crtc : drm_crtc) (crtc_x crtc_y : Int)
    (crtc_w crtc_h src_x src_y src_w src_h : Nat) : drm_state :=
  let p : exynos_drm_plane := { s.plane with
    pending_lock := true
    crtc_x := crtc_x
    crtc_y := crtc_y
    crtc_w := crtc_w
    crtc_h := crtc_h
    src_x := src_x / 65536
    src_y := src_y / 65536
    src_w := src_w / 65536
    src_h := src_h / 65536 }
  { s with plane := exynos_sanitize_plane_coords p crtc }

/-- The plane record once `exynos_plane_helper_update_plane` has stored its
arguments: the destination rectangle as given, each 16.16 fixed-point source
coordinate shifted right by 16. -/
def store_request (p : exynos_drm_plane) (crtc_x crtc_y : Int)
    (crtc_w crtc_h src_x src_y src_w src_h : Nat) : exynos_drm_plane :=
  { p with
    crtc_x := crtc_x
    crtc_y := crtc_y
    crtc_w := crtc_w
    crtc_h := crtc_h
    src_x := src_x / 65536
    src_y := src_y / 65536
    src_w := src_w / 65536
    src_h := src_h / 65536 }

/-- The state left on `idle_state (some 3)` under `env_no_fence` by the request
for buffer 7 at destination (-10, 0, 50, 20) with source (0, 0, 50, 20) on the
1920x1080 display: clipped geometry stored, buffer 7 pending, lock held. -/
def clipped_request_state : drm_state :=
  { plane := { idle_plane (some 3) with
      crtc_w := 40, crtc_h := 20, src_x := 10, src_w := 40, src_h := 20,
      pending_fb := some 7, pending_lock := true }
    refcount := Function.update (fun _ => 1) 7 2
    event_list := []
    calls := [.kzalloc, .drm_framebuffer_reference 7, .commit_plane 0 7, .kfree] }

/-- The completion event as `exynos_drm_crtc_send_event` queues it: the
request stamped with the pipe, sequence 0 and the clock of the call. -/
def stamped_event (env : kernel_env) (event : drm_pending_vblank_event) (pipe : Int) :
    drm_pending_vblank_event :=
  { event with pipe := pipe, sequence := 0, tv_sec := env.now_sec, tv_usec := env.now_usec }

/-- A completion request not yet delivered. -/
def flip_request : drm_pending_vblank_event :=
  { user_data := 42, pipe := -1, sequence := 99, tv_sec := -1, tv_usec := -1 }

/-- The plane at rest showing buffer 3, attached to the 1920x1080 pipe (id 0),
with `flip_request` pending. -/
def attached_state : drm_state :=
  { idle_state (some 3) with
    plane := { idle_plane (some 3) with
      crtc := some crtc_1080p, pending_event := some flip_request } }

/-- As `env_no_fence`, but the hardware `disable_plane` reports `-EIO`. -/
def env_disable_fails : kernel_env := { env_no_fence with disable_plane_ret := -5 }

/-- The state inside `exynos_plane_helper_commit_cb` right after
`exynos_plane->pending_fb = fb`: the buffer pushed to the hardware and pending. -/
def pushed (s : drm_state) (cookie : kds_callback_cookie) : drm_state :=
  { s with
    plane := { s.plane with pending_fb := some cookie.fb }
    calls := s.calls ++ [.commit_plane cookie.crtc.id cookie.fb] }

/-- The hardware `commit_plane` calls of a call log, in order. -/
def commit_calls (l : List ext_call) : List ext_call :=
  l.filter fun c =>
    match c with
    | .commit_plane _ _ => true
    | _ => false

/-- The consistency predicate on the geometry: the source crop is no wider and
no higher than the destination. -/
def crop_within_destination (p : exynos_drm_plane) : Prop :=
  p.src_w ≤ p.crtc_w ∧ p.src_h ≤ p.crtc_h

/-- The states a plane can be in when the commit callback may run at any time.
The plane starts with no current buffer, no pending buffer and the lock free,
and moves by calls of the entry points of the file.
`exynos_plane_helper_update_plane`, `exynos_plane_helper_disable_plane`,
`exynos_plane_helper_freeze_plane` and `exynos_plane_helper_thaw_plane` take
the lock themselves, so they only return when they find it free;
`exynos_plane_helper_finish_update` is called with the lock held. Nothing is
required of the lock when the commit callback runs: the code only warns
(`WARN_ON`) and goes on. -/
inductive ReachableAnytime : drm_state → Prop where
  | init (s : drm_state) (hfb : s.plane.fb = none) (hpending : s.plane.pending_fb = none)
      (hlock : s.plane.pending_lock = false) : ReachableAnytime s
  | update_plane (env : kernel_env) (s s' : drm_state) (crtc : drm_crtc) (fb : Nat)
      (crtc_x crtc_y : Int) (crtc_w crtc_h src_x src_y src_w src_h : Nat) (ret : Int)
      (hs : ReachableAnytime s)
      (hcall : exynos_plane_helper_update_plane env s crtc fb crtc_x crtc_y crtc_w crtc_h
        src_x src_y src_w src_h = .ok (ret, s')) : ReachableAnytime s'
  | commit_cb (env : kernel_env) (s : drm_state) (cookie : kds_callback_cookie)
      (hs : ReachableAnytime s) :
      ReachableAnytime (exynos_plane_helper_commit_cb env s cookie)
  | finish_update (env : kernel_env) (s : drm_state) (pipe : Int)
      (hs : ReachableAnytime s) (hlock : s.plane.pending_lock = true) :
      ReachableAnytime (exynos_plane_helper_finish_update env s pipe)
  | disable_plane (env : kernel_env) (s s' : drm_state) (ret : Int)
      (hs : ReachableAnytime s)
      (hcall : exynos_plane_helper_disable_plane env s = .ok (ret, s')) :
      ReachableAnytime s'
  | freeze_plane (env : kernel_env) (s s' : drm_state) (ret : Int)
      (hs : ReachableAnytime s)
      (hcall : exynos_plane_helper_freeze_plane env s = .ok (ret, s')) :
      ReachableAnytime s'
  | thaw_plane (s s' : drm_state) (crtc : drm_crtc) (hs : ReachableAnytime s)
      (hcall : exynos_plane_helper_thaw_plane s crtc = .ok s') : ReachableAnytime s'

/-- The states a plane can be in when the commit callback only runs with the
update lock held, as its `WARN_ON` expects: `ReachableAnytime` with that one
condition added to the callback step. -/
inductive Reachable : drm_state → Prop where
  | init (s : drm_state) (hfb : s.plane.fb = none) (hpending : s.plane.pending_fb = none)
      (hlock : s.plane.pending_lock = false) : Reachable s
  | update_plane (env : kernel_env) (s s' : drm_state) (crtc : drm_crtc) (fb : Nat)
      (crtc_x crtc_y : Int) (crtc_w crtc_h src_x src_y src_w src_h : Nat) (ret : Int)
      (hs : Reachable s)
      (hcall : exynos_plane_helper_update_plane env s crtc fb crtc_x crtc_y crtc_w crtc_h
        src_x src_y src_w src_h = .ok (ret, s')) : Reachable s'
  | commit_cb (env : kernel_env) (s : drm_state) (cookie : kds_callback_cookie)
      (hs : Reachable s) (hlock : s.plane.pending_lock = true) :
      Reachable (exynos_plane_helper_commit_cb env s cookie)
  | finish_update (env : kernel_env) (s : drm_state) (pipe : Int)
      (hs : Reachable s) (hlock : s.plane.pending_lock = true) :
      Reachable (exynos_plane_helper_finish_update env s pipe)
  | disable_plane (env : kernel_env) (s s' : drm_state) (ret : Int) (hs : Reachable s)
      (hcall : exynos_plane_helper_disable_plane env s = .ok (ret, s')) : Reachable s'
  | freeze_plane (env : kernel_env) (s s' : drm_state) (ret : Int) (hs : Reachable s)
      (hcall : exynos_plane_helper_freeze_plane env s = .ok (ret, s')) : Reachable s'
  | thaw_plane (s s' : drm_state) (crtc : drm_crtc) (hs : Reachable s)
      (hcall : exynos_plane_helper_thaw_plane s crtc = .ok s') : Reachable s'

/-! ## Theorems -/

/-! ### Geometry clipper -/

theorem to_u32_lt (i : Int) : to_u32 i < 4294967296 := by
  unfold to_u32; omega

/-- Facts about one clipping, by the position of the start coordinate. -/
theorem get_size_facts (x : Int) (w last : Nat) (hl : last < 4294967296) :
    (x ≤ 0 → to_u32 (exynos_plane_get_size x w last) ≤ last ∧
      to_u32 (exynos_plane_get_size x w last) < 2147483648) ∧
    (0 < x → to_u32 x ≤ last →
      to_u32 (exynos_plane_get_size x w last) + to_u32 x ≤ last) ∧
    (0 < x → last < to_u32 x → to_u32 (exynos_plane_get_size x w last) = 0) := by
  unfold exynos_plane_get_size to_s32 to_u32
  simp only []
  split_ifs <;> omega

/-- A length that already fits is returned unchanged. -/
theorem get_size_fixed (x : Int) (u last : Nat) (hx : 0 ≤ x) (hl : last < 4294967296)
    (h1 : x = 0 → u ≤ last ∧ u < 2147483648)
    (h2 : 0 < x → to_u32 x ≤ last → u + to_u32 x ≤ last)
    (h3 : 0 < x → last < to_u32 x → u = 0) :
    to_u32 (exynos_plane_get_size x u last) = u := by
  unfold exynos_plane_get_size to_s32
  unfold to_u32 at *
  simp only []
  split_ifs <;> omega

/-- Clipping the clipped length again, from the clamped start, changes nothing. -/
theorem get_size_restart (x : Int) (w last : Nat) (hl : last < 4294967296) :
    to_u32 (exynos_plane_get_size (if x < 0 then 0 else x)
      (to_u32 (exynos_plane_get_size x w last)) last)
      = to_u32 (exynos_plane_get_size x w last) := by
  obtain ⟨f1, f2, f3⟩ := get_size_facts x w last hl
  generalize to_u32 (exynos_plane_get_size x w last) = u at *
  by_cases hx : x < 0
  · rw [if_pos hx]
    exact get_size_fixed 0 u last (le_refl _) hl (fun _ => f1 (by omega))
      (fun h => by omega) (fun h => by omega)
  · rw [if_neg hx]
    exact get_size_fixed x u last (by omega) hl (fun h => f1 (by omega)) f2 f3

/-- Closed form of `exynos_sanitize_plane_coords`, field by field. -/
theorem sanitize_eq (p : exynos_drm_plane) (crtc : drm_crtc) :
    exynos_sanitize_plane_coords p crtc =
      { p with
        crtc_x := if p.crtc_x < 0 then 0 else p.crtc_x
        crtc_y := if p.crtc_y < 0 then 0 else p.crtc_y
        crtc_w := to_u32 (exynos_plane_get_size p.crtc_x p.crtc_w (to_u32 crtc.hdisplay))
        crtc_h := to_u32 (exynos_plane_get_size p.crtc_y p.crtc_h (to_u32 crtc.vdisplay))
        src_x :=
          if p.crtc_x < 0 ∧
              0 < to_u32 (exynos_plane_get_size p.crtc_x p.crtc_w (to_u32 crtc.hdisplay)) then
            (p.src_x + 4294967296 - to_u32 p.crtc_x) % 4294967296
          else p.src_x
        src_y :=
          if p.crtc_y < 0 ∧
              to_u32 (exynos_plane_get_size p.crtc_y p.crtc_h (to_u32 crtc.vdisplay)) ≠ 0 then
            (p.src_y + 4294967296 - to_u32 p.crtc_y) % 4294967296
          else p.src_y
        src_w := min p.src_w
          (to_u32 (exynos_plane_get_size p.crtc_x p.crtc_w (to_u32 crtc.hdisplay)))
        src_h := min p.src_h
          (to_u32 (exynos_plane_get_size p.crtc_y p.crtc_h (to_u32 crtc.vdisplay))) } := by
  generalize hu : to_u32 (exynos_plane_get_size p.crtc_x p.crtc_w (to_u32 crtc.hdisplay)) = u
  generalize hv : to_u32 (exynos_plane_get_size p.crtc_y p.crtc_h (to_u32 crtc.vdisplay)) = v
  unfold exynos_sanitize_plane_coords
  simp only [hu, hv]
  by_cases hx : p.crtc_x < 0 <;> by_cases hy : p.crtc_y < 0 <;>
    by_cases h0 : 0 < u <;> by_cases h1 : v = 0 <;>
    simp [hx, hy, h0, h1]

/-! ### Failure paths of an update request -/

/-- A failing `exynos_plane_update` never ran the callback: the buffers and the
lock are as it found them. -/
theorem exynos_plane_update_failure (env : kernel_env) (s s1 : drm_state)
    (crtc : drm_crtc) (fb : Nat) (cb : drm_state → kds_callback_cookie → drm_state)
    (ret : Int) (hcall : exynos_plane_update env s crtc fb cb = .ok (ret, s1))
    (hret : ret ≠ 0) :
    s1.plane.fb = s.plane.fb ∧ s1.plane.pending_fb = s.plane.pending_fb ∧
      s1.plane.pending_lock = s.plane.pending_lock := by
  unfold exynos_plane_update at hcall
  simp only [] at hcall
  split_ifs at hcall <;>
    simp only [Except.ok.injEq, Prod.mk.injEq, reduceCtorEq] at hcall <;>
    obtain ⟨h1, h2⟩ := hcall <;> subst h2 <;>
    first
      | exact absurd h1.symm hret
      | (simp only [log_call, warn_on_unlocked, drm_framebuffer_reference]
         split_ifs <;> simp)

/-- A returning `exynos_plane_helper_update_plane` found the lock free and is
the body run on the locked, clipped plane, followed by the rollback on failure. -/
theorem update_plane_ok_inv (env : kernel_env) (s s' : drm_state)
    (crtc : drm_crtc) (fb : Nat) (crtc_x crtc_y : Int)
    (crtc_w crtc_h src_x src_y src_w src_h : Nat) (ret : Int)
    (hcall : exynos_plane_helper_update_plane env s crtc fb crtc_x crtc_y crtc_w crtc_h
      src_x src_y src_w src_h = .ok (ret, s')) :
    s.plane.pending_lock = false ∧
    ∃ s1, exynos_plane_update env
        (requested s crtc crtc_x crtc_y crtc_w crtc_h src_x src_y src_w src_h)
        crtc fb (exynos_plane_helper_commit_cb env) = .ok (ret, s1) ∧
      s' = if ret ≠ 0 then
          { s1 with plane := exynos_plane_copy_state s.plane s1.plane }
        else s1 := by
  unfold exynos_plane_helper_update_plane mutex_lock at hcall
  by_cases hl : s.plane.pending_lock = true
  · simp [hl, bind, Except.bind] at hcall
  · simp only [hl, bind, Except.bind] at hcall
    refine ⟨by simpa using hl, ?_⟩
    split at hcall
    · simp at hcall
    · rename_i v1 hv1
      simp at hv1
      subst hv1
      split at hcall
      · simp at hcall
      · rename_i v2 hv2
        obtain ⟨r, s1⟩ := v2
        simp only [pure, Except.pure] at hcall
        split_ifs at hcall with h0
        · simp only [Except.ok.injEq, Prod.mk.injEq] at hcall
          obtain ⟨h1, h2⟩ := hcall
          subst h1
          refine ⟨s1, hv2, ?_⟩
          rw [if_pos h0, ← h2]
          simp [exynos_plane_copy_state]
        · simp only [Except.ok.injEq, Prod.mk.injEq] at hcall
          obtain ⟨h1, h2⟩ := hcall
          subst h1
          refine ⟨s1, hv2, ?_⟩
          rw [if_neg h0, ← h2]

/-- With the lock free the call is the body on the locked, clipped plane. -/
theorem update_plane_unlocked (env : kernel_env) (s : drm_state)
    (crtc : drm_crtc) (fb : Nat) (crtc_x crtc_y : Int)
    (crtc_w crtc_h src_x src_y src_w src_h : Nat)
    (hl : s.plane.pending_lock = false) (s1 : drm_state)
    (h : exynos_plane_update env
        (requested s crtc crtc_x crtc_y crtc_w crtc_h src_x src_y src_w src_h)
        crtc fb (exynos_plane_helper_commit_cb env) = .ok (0, s1)) :
    exynos_plane_helper_update_plane env s crtc fb crtc_x crtc_y crtc_w crtc_h
      src_x src_y src_w src_h = .ok (0, s1) := by
  simp only [requested] at h
  simp [exynos_plane_helper_update_plane, mutex_lock, hl, bind, Except.bind, h, pure,
    Except.pure]

/-- C1. Whenever `exynos_plane_helper_update_plane` returns a non-zero status,
the eight geometry fields, the current buffer `fb` and the pending buffer
`pending_fb` of the plane are what they were before the call. -/
theorem update_plane_failure_restores (env : kernel_env) (s s' : drm_state)
    (crtc : drm_crtc) (fb : Nat) (crtc_x crtc_y : Int)
    (crtc_w crtc_h src_x src_y src_w src_h : Nat) (ret : Int)
    (hcall : exynos_plane_helper_update_plane env s crtc fb crtc_x crtc_y crtc_w crtc_h
      src_x src_y src_w src_h = .ok (ret, s'))
    (hret : ret ≠ 0) :
    geometry s'.plane = geometry s.plane ∧ s'.plane.fb = s.plane.fb ∧
      s'.plane.pending_fb = s.plane.pending_fb := by
  obtain ⟨-, s1, h1, h2⟩ := update_plane_ok_inv _ _ _ _ _ _ _ _ _ _ _ _ _ _ hcall
  obtain ⟨f1, f2, -⟩ := exynos_plane_update_failure _ _ _ _ _ _ _ h1 hret
  rw [if_pos hret] at h2
  subst h2
  simp only [requested, sanitize_eq] at f1 f2
  exact ⟨rfl, f1, f2⟩

/-- C1 at a call where `kzalloc` fails: the plane keeps its geometry and buffers. -/
theorem update_plane_failure_restores_witness :
    exynos_plane_helper_update_plane env_kzalloc_fails (idle_state (some 3)) crtc_1080p 7
        (-10) 0 50 20 0 0 3276800 1310720
      = .ok (-12, { idle_state (some 3) with
          plane := { idle_plane (some 3) with pending_lock := true }
          calls := [.kzalloc] }) ∧
    (-12 : Int) ≠ 0 ∧
    geometry (idle_plane (some 3)) = geometry (idle_state (some 3)).plane ∧
    (some 3 : Option Nat) = (idle_state (some 3)).plane.fb ∧
    (none : Option Nat) = (idle_state (some 3)).plane.pending_fb :=
  ⟨rfl, by decide,
    update_plane_failure_restores env_kzalloc_fails (idle_state (some 3))
      { idle_state (some 3) with
          plane := { idle_plane (some 3) with pending_lock := true }
          calls := [.kzalloc] }
      crtc_1080p 7 (-10) 0 50 20 0 0 3276800 1310720 (-12) rfl (by decide)⟩

/-- C2, evaluated at a failing call. The plane is at rest with the lock free and
`kzalloc` returns `NULL`: the call returns `-ENOMEM` and the lock is still held
on return. The same holds when `kds_async_waitall` fails. -/
theorem update_plane_failure_leaves_lock_held :
    (idle_state none).plane.pending_lock = false ∧
    (∃ s', exynos_plane_helper_update_plane env_kzalloc_fails (idle_state none)
        crtc_1080p 7 0 0 64 64 0 0 4194304 4194304 = .ok (-12, s') ∧
      s'.plane.pending_lock = true) ∧
    (∃ s', exynos_plane_helper_update_plane env_waitall_fails (idle_state none)
        crtc_1080p 7 0 0 64 64 0 0 4194304 4194304 = .ok (-12, s') ∧
      s'.plane.pending_lock = true) :=
  ⟨rfl, ⟨_, rfl, rfl⟩, ⟨_, rfl, rfl⟩⟩

/-- C3, evaluated at failing calls. When `kds_callback_init` or
`kds_async_waitall` fails, the call returns `-ENOMEM` and the target buffer 7
holds one reference more than before: the log shows the acquire and no release,
and no `kfree` of the correlation record. -/
theorem update_plane_failure_keeps_reference :
    (idle_state none).refcount 7 = 1 ∧
    (∃ s', exynos_plane_helper_update_plane env_callback_init_fails (idle_state none)
        crtc_1080p 7 0 0 64 64 0 0 4194304 4194304 = .ok (-12, s') ∧
      s'.refcount 7 = 2 ∧
      s'.calls = [.kzalloc, .drm_framebuffer_reference 7, .kds_callback_init]) ∧
    (∃ s', exynos_plane_helper_update_plane env_waitall_fails (idle_state none)
        crtc_1080p 7 0 0 64 64 0 0 4194304 4194304 = .ok (-12, s') ∧
      s'.refcount 7 = 2 ∧
      s'.calls = [.kzalloc, .drm_framebuffer_reference 7, .kds_callback_init,
        .exynos_drm_fb_attach_dma_buf 7, .kds_async_waitall ⟨crtc_1080p, 7⟩]) :=
  ⟨rfl, ⟨_, rfl, rfl, rfl⟩, ⟨_, rfl, rfl, rfl⟩⟩

/-! ### The update cycle -/

/-- The body commits at once when the record is allocated and the buffer has
no readiness signal to wait for. -/
theorem exynos_plane_update_ready (env : kernel_env) (s : drm_state) (crtc : drm_crtc)
    (fb : Nat) (cb : drm_state → kds_callback_cookie → drm_state)
    (halloc : env.kzalloc_ok = true)
    (hready : env.config_kds = false ∨ (s.plane.kds = false ∧ env.dma_buf fb = false)) :
    exynos_plane_update env s crtc fb cb =
      .ok (0, cb (drm_framebuffer_reference (log_call (warn_on_unlocked s) .kzalloc) fb)
        ⟨crtc, fb⟩) := by
  unfold exynos_plane_update
  rcases hready with h | ⟨h1, h2⟩
  · simp [halloc, h]
  · by_cases hc : env.config_kds = true
    · have hk : (drm_framebuffer_reference (log_call (warn_on_unlocked s) .kzalloc)
          fb).plane.kds = false := by
        simp only [log_call, warn_on_unlocked, drm_framebuffer_reference]
        split_ifs <;> simpa using h1
      simp [halloc, hc, h2, hk]
    · simp [halloc, hc]

theorem ref_calls_append (l m : List ext_call) :
    ref_calls (l ++ m) = ref_calls l ++ ref_calls m := by
  simp [ref_calls, List.filter_append]

/-- The plane after `exynos_plane_helper_finish_update`. -/
theorem finish_update_plane (env : kernel_env) (s : drm_state) (pipe : Int) :
    (exynos_plane_helper_finish_update env s pipe).plane =
      { s.plane with
        fb := s.plane.pending_fb
        pending_fb := none
        pending_lock := false
        kds := if env.config_kds then false else s.plane.kds
        pending_event := if pipe ≥ 0 then none else s.plane.pending_event } := by
  unfold exynos_plane_helper_finish_update exynos_drm_crtc_send_event
  cases hc : env.config_kds <;> cases hk : s.plane.kds <;>
    cases hu : s.plane.kds_cb_user_cb <;> cases he : s.plane.pending_event <;>
    cases hf : s.plane.fb <;> cases hl : s.plane.pending_lock <;>
    by_cases hp : pipe ≥ 0 <;>
    simp [*, log_call, mutex_unlock, warn_on_unlocked, drm_framebuffer_unreference]

/-- The reference counts after `exynos_plane_helper_finish_update`. -/
theorem finish_update_refcount (env : kernel_env) (s : drm_state) (pipe : Int) :
    (exynos_plane_helper_finish_update env s pipe).refcount =
      match s.plane.fb with
      | some a => Function.update s.refcount a (s.refcount a - 1)
      | none => s.refcount := by
  unfold exynos_plane_helper_finish_update exynos_drm_crtc_send_event
  cases hc : env.config_kds <;> cases hk : s.plane.kds <;>
    cases hu : s.plane.kds_cb_user_cb <;> cases he : s.plane.pending_event <;>
    cases hf : s.plane.fb <;> cases hl : s.plane.pending_lock <;>
    by_cases hp : pipe ≥ 0 <;>
    simp [*, log_call, mutex_unlock, warn_on_unlocked, drm_framebuffer_unreference]

/-- The acquire and release calls logged by `exynos_plane_helper_finish_update`. -/
theorem finish_update_ref_calls (env : kernel_env) (s : drm_state) (pipe : Int) :
    ref_calls (exynos_plane_helper_finish_update env s pipe).calls =
      ref_calls s.calls ++
        (match s.plane.fb with
         | some a => [ext_call.drm_framebuffer_unreference a]
         | none => []) := by
  unfold exynos_plane_helper_finish_update exynos_drm_crtc_send_event
  cases hc : env.config_kds <;> cases hk : s.plane.kds <;>
    cases hu : s.plane.kds_cb_user_cb <;> cases he : s.plane.pending_event <;>
    cases hf : s.plane.fb <;> cases hl : s.plane.pending_lock <;>
    by_cases hp : pipe ≥ 0 <;>
    simp [*, log_call, mutex_unlock, warn_on_unlocked, drm_framebuffer_unreference,
      ref_calls, List.filter_append]

/-- No warning is raised by `exynos_plane_helper_finish_update` under the lock. -/
theorem finish_update_no_warn (env : kernel_env) (s : drm_state) (pipe : Int)
    (hlock : s.plane.pending_lock = true) :
    (exynos_plane_helper_finish_update env s pipe).calls.count .WARN_ON =
      s.calls.count .WARN_ON := by
  unfold exynos_plane_helper_finish_update exynos_drm_crtc_send_event
  cases hc : env.config_kds <;> cases hk : s.plane.kds <;>
    cases hu : s.plane.kds_cb_user_cb <;> cases he : s.plane.pending_event <;>
    cases hf : s.plane.fb <;>
    by_cases hp : pipe ≥ 0 <;>
    simp [*, log_call, mutex_unlock, warn_on_unlocked, drm_framebuffer_unreference,
      List.count_append]

/-- C6. With the update lock held, `exynos_plane_helper_finish_update` makes the
previous pending buffer the current one, clears the pending buffer, releases
the lock, leaves the geometry alone, and drops exactly one reference of the
previous current buffer (none when there was no current buffer); no other
reference count moves and no warning is raised. -/
theorem finish_update_effect (env : kernel_env) (s : drm_state) (pipe : Int)
    (hlock : s.plane.pending_lock = true) :
    (exynos_plane_helper_finish_update env s pipe).plane.fb = s.plane.pending_fb ∧
    (exynos_plane_helper_finish_update env s pipe).plane.pending_fb = none ∧
    (exynos_plane_helper_finish_update env s pipe).plane.pending_lock = false ∧
    geometry (exynos_plane_helper_finish_update env s pipe).plane = geometry s.plane ∧
    (∀ a, s.plane.fb = some a →
      (exynos_plane_helper_finish_update env s pipe).refcount a = s.refcount a - 1 ∧
      ∀ c, c ≠ a → (exynos_plane_helper_finish_update env s pipe).refcount c = s.refcount c) ∧
    (s.plane.fb = none →
      (exynos_plane_helper_finish_update env s pipe).refcount = s.refcount) ∧
    ref_calls (exynos_plane_helper_finish_update env s pipe).calls =
      ref_calls s.calls ++
        (match s.plane.fb with
         | some a => [ext_call.drm_framebuffer_unreference a]
         | none => []) ∧
    (exynos_plane_helper_finish_update env s pipe).calls.count .WARN_ON =
      s.calls.count .WARN_ON := by
  refine ⟨?_, ?_, ?_, ?_, ?_, ?_, finish_update_ref_calls env s pipe,
    finish_update_no_warn env s pipe hlock⟩
  · rw [finish_update_plane]
  · rw [finish_update_plane]
  · rw [finish_update_plane]
  · rw [finish_update_plane]; rfl
  · intro a ha
    rw [finish_update_refcount, ha]
    refine ⟨by simp, fun c hc => by simp [Function.update, hc]⟩
  · intro h
    rw [finish_update_refcount, h]

/-- C6 on a locked plane showing buffer 3 with buffer 7 pending. -/
theorem finish_update_effect_witness :
    ({ idle_state (some 3) with
        plane := { idle_plane (some 3) with pending_lock := true, pending_fb := some 7 }
      } : drm_state).plane.pending_lock = true ∧
    (exynos_plane_helper_finish_update env_no_fence
      { idle_state (some 3) with
        plane := { idle_plane (some 3) with pending_lock := true, pending_fb := some 7 } }
      0).plane.fb = some 7 ∧
    (exynos_plane_helper_finish_update env_no_fence
      { idle_state (some 3) with
        plane := { idle_plane (some 3) with pending_lock := true, pending_fb := some 7 } }
      0).refcount 3 = 0 :=
  have h := finish_update_effect env_no_fence
    { idle_state (some 3) with
      plane := { idle_plane (some 3) with pending_lock := true, pending_fb := some 7 } }
    0 rfl
  ⟨rfl, h.1, (h.2.2.2.2.1 3 rfl).1⟩

/-- The callback on a buffer that is not the current one: the buffer is pushed
to the hardware and becomes pending, nothing else changes. -/
theorem commit_cb_other (env : kernel_env) (s : drm_state) (cookie : kds_callback_cookie)
    (h : s.plane.fb ≠ some cookie.fb) :
    exynos_plane_helper_commit_cb env s cookie =
      { plane := { s.plane with pending_fb := some cookie.fb }
        refcount := s.refcount
        event_list := s.event_list
        calls := (warn_on_unlocked s).calls ++
          [.commit_plane cookie.crtc.id cookie.fb, .kfree] } := by
  unfold exynos_plane_helper_commit_cb
  cases hl : s.plane.pending_lock <;> simp [warn_on_unlocked, log_call, hl, h]

/-- The callback on the buffer already shown finishes the update at once. -/
theorem commit_cb_same (env : kernel_env) (s : drm_state) (cookie : kds_callback_cookie)
    (h : s.plane.fb = some cookie.fb) :
    exynos_plane_helper_commit_cb env s cookie =
      log_call (exynos_plane_helper_finish_update env
        { plane := { s.plane with pending_fb := some cookie.fb }
          refcount := s.refcount
          event_list := s.event_list
          calls := (warn_on_unlocked s).calls ++
            [.commit_plane cookie.crtc.id cookie.fb] } cookie.crtc.id) .kfree := by
  unfold exynos_plane_helper_commit_cb
  cases hl : s.plane.pending_lock <;> simp [warn_on_unlocked, log_call, hl, h]

/-- The clipped request keeps every field that is not geometry, and holds the lock. -/
theorem requested_fields (s : drm_state) (crtc : drm_crtc) (crtc_x crtc_y : Int)
    (crtc_w crtc_h src_x src_y src_w src_h : Nat) :
    (requested s crtc crtc_x crtc_y crtc_w crtc_h src_x src_y src_w src_h).plane.fb
        = s.plane.fb ∧
    (requested s crtc crtc_x crtc_y crtc_w crtc_h src_x src_y src_w src_h).plane.pending_fb
        = s.plane.pending_fb ∧
    (requested s crtc crtc_x crtc_y crtc_w crtc_h src_x src_y src_w src_h).plane.pending_lock
        = true ∧
    (requested s crtc crtc_x crtc_y crtc_w crtc_h src_x src_y src_w src_h).plane.kds
        = s.plane.kds ∧
    (requested s crtc crtc_x crtc_y crtc_w crtc_h src_x src_y src_w src_h).refcount
        = s.refcount ∧
    (requested s crtc crtc_x crtc_y crtc_w crtc_h src_x src_y src_w src_h).calls
        = s.calls := by
  simp [requested, sanitize_eq]

/-- The state in which the callback runs on the immediate path: the lock is
held, one reference on the target was taken, two calls were logged. -/
theorem reference_locked (t : drm_state) (fb : Nat) (hl : t.plane.pending_lock = true) :
    drm_framebuffer_reference (log_call (warn_on_unlocked t) .kzalloc) fb =
      { plane := t.plane
        refcount := Function.update t.refcount fb (t.refcount fb + 1)
        event_list := t.event_list
        calls := t.calls ++ [.kzalloc, .drm_framebuffer_reference fb] } := by
  simp [drm_framebuffer_reference, log_call, warn_on_unlocked, hl]

/-- A successful request for a buffer without readiness signal has run the
callback on the locked, clipped plane, after taking one reference. -/
theorem update_plane_ready_inv (env : kernel_env) (s s1 : drm_state) (crtc : drm_crtc)
    (fb : Nat) (crtc_x crtc_y : Int) (crtc_w crtc_h src_x src_y src_w src_h : Nat)
    (hready : env.config_kds = false ∨ env.dma_buf fb = false)
    (hcall : exynos_plane_helper_update_plane env s crtc fb crtc_x crtc_y crtc_w crtc_h
      src_x src_y src_w src_h = .ok (0, s1)) :
    s1 = exynos_plane_helper_commit_cb env
      { plane := (requested s crtc crtc_x crtc_y crtc_w crtc_h src_x src_y src_w src_h).plane
        refcount := Function.update s.refcount fb (s.refcount fb + 1)
        event_list := s.event_list
        calls := s.calls ++ [.kzalloc, .drm_framebuffer_reference fb] }
      ⟨crtc, fb⟩ := by
  obtain ⟨-, t, h1, h2⟩ := update_plane_ok_inv _ _ _ _ _ _ _ _ _ _ _ _ _ _ hcall
  obtain ⟨-, -, q3, -, q5, q6⟩ :=
    requested_fields s crtc crtc_x crtc_y crtc_w crtc_h src_x src_y src_w src_h
  have hev : (requested s crtc crtc_x crtc_y crtc_w crtc_h src_x src_y src_w
      src_h).event_list = s.event_list := rfl
  have hpre := reference_locked _ fb q3
  rw [q5, q6, hev] at hpre
  simp only [ne_eq, not_true_eq_false, if_false] at h2
  subst h2
  unfold exynos_plane_update at h1
  simp only [] at h1
  rw [hpre] at h1
  split_ifs at h1 with c1 c2 c3 c4 c5 c6 <;>
    simp only [Except.ok.injEq, Prod.mk.injEq, reduceCtorEq] at h1
  · exact absurd h1.1 (by decide)
  · exact h1.2.symm
  · exact h1.2.symm
  · rcases hready with h | h
    · simp [h] at c2
    · simp [h] at c4
  · rcases hready with h | h
    · simp [h] at c2
    · simp [h] at c4
  · rcases hready with h | h
    · simp [h] at c2
    · simp [h] at c4

/-- C4. On a plane showing `A`, possibly no buffer, take a successful request
for a different buffer `B` that has no readiness signal to wait for, so that the
request ran the commit callback; a request that returns has found the lock
free. On return `B` is pending under the lock, and after one
`exynos_plane_helper_finish_update` the plane shows `B`, nothing is pending,
the lock is free, the only acquire and release logged since before the request
are one acquire of `B` and one release of `A` (none when `A` is null), and the
counts moved accordingly: `B` one up, `A` one down, all others unchanged. -/
theorem update_then_finish (env env' : kernel_env) (s s1 : drm_state) (crtc : drm_crtc)
    (A : Option Nat) (B : Nat) (crtc_x crtc_y : Int)
    (crtc_w crtc_h src_x src_y src_w src_h : Nat) (pipe : Int)
    (hfb : s.plane.fb = A) (hne : A ≠ some B)
    (hready : env.config_kds = false ∨ env.dma_buf B = false)
    (hcall : exynos_plane_helper_update_plane env s crtc B crtc_x crtc_y crtc_w crtc_h
      src_x src_y src_w src_h = .ok (0, s1)) :
    s1.plane.pending_fb = some B ∧ s1.plane.fb = A ∧ s1.plane.pending_lock = true ∧
    (exynos_plane_helper_finish_update env' s1 pipe).plane.fb = some B ∧
    (exynos_plane_helper_finish_update env' s1 pipe).plane.pending_fb = none ∧
    (exynos_plane_helper_finish_update env' s1 pipe).plane.pending_lock = false ∧
    ref_calls (exynos_plane_helper_finish_update env' s1 pipe).calls =
      ref_calls s.calls ++ ext_call.drm_framebuffer_reference B ::
        (match A with
         | some a => [ext_call.drm_framebuffer_unreference a]
         | none => []) ∧
    (exynos_plane_helper_finish_update env' s1 pipe).refcount B = s.refcount B + 1 ∧
    (∀ a, A = some a →
      (exynos_plane_helper_finish_update env' s1 pipe).refcount a = s.refcount a - 1) ∧
    (∀ c, c ≠ B → A ≠ some c →
      (exynos_plane_helper_finish_update env' s1 pipe).refcount c = s.refcount c) := by
  obtain ⟨q1, q2, q3, -, -, -⟩ :=
    requested_fields s crtc crtc_x crtc_y crtc_w crtc_h src_x src_y src_w src_h
  have hs1 := update_plane_ready_inv env s s1 crtc B crtc_x crtc_y crtc_w crtc_h
    src_x src_y src_w src_h hready hcall
  rw [commit_cb_other env _ ⟨crtc, B⟩ (by simp only [q1, hfb]; exact hne)] at hs1
  subst hs1
  simp only [finish_update_plane, finish_update_refcount, finish_update_ref_calls,
    warn_on_unlocked, q1, q2, q3, hfb, if_true]
  cases A with
  | none =>
    simp [ref_calls, List.filter_append]
    intro c hc
    simp [Function.update, hc]
  | some a =>
    have hab : a ≠ B := fun h => hne (by rw [h])
    simp [ref_calls, List.filter_append, Function.update, hab]
    refine ⟨fun h => absurd h.symm hab, fun c hc hca => ?_⟩
    simp [hc, Ne.symm hca]

/-- C4 on a plane showing buffer 3, asked to show buffer 7. -/
theorem update_then_finish_witness :
    (idle_state (some 3)).plane.fb = some 3 ∧
    (some 3 : Option Nat) ≠ some 7 ∧
    (env_no_fence.config_kds = false ∨ env_no_fence.dma_buf 7 = false) ∧
    exynos_plane_helper_update_plane env_no_fence (idle_state (some 3)) crtc_1080p 7
        0 0 64 64 0 0 4194304 4194304 = .ok (0, in_flight_state (some 3)) ∧
    (exynos_plane_helper_finish_update env_no_fence (in_flight_state (some 3)) 0).plane.fb
      = some 7 ∧
    (exynos_plane_helper_finish_update env_no_fence (in_flight_state (some 3)) 0).refcount 7
      = 2 ∧
    (exynos_plane_helper_finish_update env_no_fence (in_flight_state (some 3)) 0).refcount 3
      = 0 :=
  have h := update_then_finish env_no_fence env_no_fence (idle_state (some 3))
    (in_flight_state (some 3)) crtc_1080p (some 3) 7 0 0 64 64 0 0 4194304 4194304 0
    rfl (by decide) (Or.inr rfl) rfl
  ⟨rfl, by decide, Or.inr rfl, rfl, h.2.2.2.1, h.2.2.2.2.2.2.2.1,
    h.2.2.2.2.2.2.2.2.1 3 rfl⟩

/-- C7 as stated fails when `kzalloc` returns `NULL`. The plane has the lock
free, nothing pending, and shows buffer 3, which has no readiness signal; the
request for buffer 3 returns `-ENOMEM`, not success. -/
theorem update_same_buffer_without_record :
    (idle_state (some 3)).plane.pending_lock = false ∧
    (idle_state (some 3)).plane.pending_fb = none ∧
    (idle_state (some 3)).plane.fb = some 3 ∧
    env_kzalloc_fails.dma_buf 3 = false ∧
    exynos_plane_helper_update_plane env_kzalloc_fails (idle_state (some 3)) crtc_1080p 3
        0 0 64 64 0 0 4194304 4194304
      = .ok (-12, { idle_state (some 3) with
          plane := { idle_plane (some 3) with pending_lock := true }
          calls := [.kzalloc] }) ∧
    ¬ ∃ s', exynos_plane_helper_update_plane env_kzalloc_fails (idle_state (some 3))
        crtc_1080p 3 0 0 64 64 0 0 4194304 4194304 = .ok (0, s') := by
  refine ⟨rfl, rfl, rfl, rfl, rfl, ?_⟩
  rintro ⟨s', h⟩
  have hrun : exynos_plane_helper_update_plane env_kzalloc_fails (idle_state (some 3))
      crtc_1080p 3 0 0 64 64 0 0 4194304 4194304
      = .ok (-12, { idle_state (some 3) with
          plane := { idle_plane (some 3) with pending_lock := true }
          calls := [.kzalloc] }) := rfl
  rw [hrun] at h
  simp only [Except.ok.injEq, Prod.mk.injEq] at h
  exact absurd h.1 (by decide)

/-- C7, amended. On a plane with the lock free and no wait outstanding, showing
a buffer `A` that has no readiness signal, a request for `A` itself returns
success whenever the correlation record is allocated, and has already finished
on return: the plane shows `A`, nothing is pending, the lock is free, and no
reference count has changed, the one acquire of `A` being matched by one
release of `A`. -/
theorem update_same_buffer (env : kernel_env) (s : drm_state) (crtc : drm_crtc)
    (A : Nat) (crtc_x crtc_y : Int) (crtc_w crtc_h src_x src_y src_w src_h : Nat)
    (hlock : s.plane.pending_lock = false) (hfb : s.plane.fb = some A)
    (halloc : env.kzalloc_ok = true)
    (hready : env.config_kds = false ∨ (s.plane.kds = false ∧ env.dma_buf A = false)) :
    ∃ s', exynos_plane_helper_update_plane env s crtc A crtc_x crtc_y crtc_w crtc_h
        src_x src_y src_w src_h = .ok (0, s') ∧
      s'.plane.fb = some A ∧ s'.plane.pending_fb = none ∧
      s'.plane.pending_lock = false ∧
      s'.refcount A = s.refcount A ∧ s'.refcount = s.refcount ∧
      ref_calls s'.calls = ref_calls s.calls ++
        [.drm_framebuffer_reference A, .drm_framebuffer_unreference A] := by
  obtain ⟨q1, q2, q3, q4, q5, q6⟩ :=
    requested_fields s crtc crtc_x crtc_y crtc_w crtc_h src_x src_y src_w src_h
  have hr := exynos_plane_update_ready env
    (requested s crtc crtc_x crtc_y crtc_w crtc_h src_x src_y src_w src_h) crtc A
    (exynos_plane_helper_commit_cb env) halloc (by rw [q4]; exact hready)
  refine ⟨_, update_plane_unlocked env s crtc A crtc_x crtc_y crtc_w crtc_h src_x src_y
    src_w src_h hlock _ hr, ?_⟩
  rw [reference_locked _ A q3]
  rw [commit_cb_same env _ ⟨crtc, A⟩ (by simp only [q1, hfb])]
  simp only [log_call, finish_update_plane, finish_update_refcount, ref_calls_append,
    finish_update_ref_calls, warn_on_unlocked, q1, q2, q3, q5, q6, hfb, if_true]
  refine ⟨trivial, trivial, trivial, ?_, ?_, ?_⟩
  · simp
  · simp
  · simp [ref_calls]

/-- C7 on a plane showing buffer 3, asked to show buffer 3 again. -/
theorem update_same_buffer_witness :
    (idle_state (some 3)).plane.pending_lock = false ∧
    (idle_state (some 3)).plane.fb = some 3 ∧
    ∃ s', exynos_plane_helper_update_plane env_no_fence (idle_state (some 3)) crtc_1080p 3
        (-10) 0 50 20 0 0 3276800 1310720 = .ok (0, s') ∧
      s'.plane.fb = some 3 ∧ s'.plane.pending_lock = false ∧ s'.refcount 3 = 1 :=
  have h := update_same_buffer env_no_fence (idle_state (some 3)) crtc_1080p 3
    (-10) 0 50 20 0 0 3276800 1310720 rfl rfl rfl (Or.inr ⟨rfl, rfl⟩)
  ⟨rfl, rfl, h.elim fun s' hs => ⟨s', hs.1, hs.2.1, hs.2.2.2.1, hs.2.2.2.2.1⟩⟩

/-! ### The lock invariant -/

/-- A returning freeze found the lock free, called the hardware once, and
returns its status with the lock free again. -/
theorem freeze_plane_ok_inv (env : kernel_env) (s s' : drm_state) (ret : Int)
    (hcall : exynos_plane_helper_freeze_plane env s = .ok (ret, s')) :
    s.plane.pending_lock = false ∧ ret = env.disable_plane_ret ∧
      s' = { s with
        plane := { s.plane with pending_lock := false }
        calls := s.calls ++ [.disable_plane] } := by
  unfold exynos_plane_helper_freeze_plane mutex_lock at hcall
  cases hl : s.plane.pending_lock
  · simp [hl, bind, Except.bind, pure, Except.pure, log_call, mutex_unlock] at hcall
    exact ⟨rfl, hcall.1.symm, hcall.2.symm⟩
  · simp [hl, bind, Except.bind] at hcall

/-- A returning thaw found the lock free; with a buffer retained it pushed it,
took a reference and left it pending under the lock, otherwise it changed nothing. -/
theorem thaw_plane_ok_inv (s s' : drm_state) (crtc : drm_crtc)
    (hcall : exynos_plane_helper_thaw_plane s crtc = .ok s') :
    s.plane.pending_lock = false ∧
      s' = match s.plane.fb with
        | some fb =>
          { plane := { s.plane with pending_lock := true, pending_fb := some fb }
            refcount := Function.update s.refcount fb (s.refcount fb + 1)
            event_list := s.event_list
            calls := s.calls ++ [.commit_plane crtc.id fb, .drm_framebuffer_reference fb] }
        | none => s := by
  rcases s with ⟨⟨c, ctx, x, y, w, h, sx, sy, sw, sh, fb, pfb, pe, pl, kds, ucb⟩, rc, ev, l⟩
  unfold exynos_plane_helper_thaw_plane mutex_lock at hcall
  cases pl
  · cases fb <;>
      simp [bind, Except.bind, pure, Except.pure, log_call, mutex_unlock,
        drm_framebuffer_reference] at hcall <;>
      exact ⟨rfl, hcall.symm⟩
  · simp [bind, Except.bind] at hcall

/-- A returning disable found the lock free and nothing pending, and is
`exynos_plane_helper_finish_update` run under the lock, after the hardware
call when a buffer is shown. -/
theorem disable_plane_ok_inv (env : kernel_env) (s s' : drm_state) (ret : Int)
    (hcall : exynos_plane_helper_disable_plane env s = .ok (ret, s')) :
    s.plane.pending_lock = false ∧ s.plane.pending_fb = none ∧ ret = 0 ∧
      s' = exynos_plane_helper_finish_update env
        { s with
          plane := { s.plane with pending_lock := true }
          calls := if s.plane.fb.isSome then s.calls ++ [.disable_plane] else s.calls }
        (match s.plane.crtc with
         | some c => c.id
         | none => -1) := by
  rcases s with ⟨⟨c, ctx, x, y, w, h, sx, sy, sw, sh, fb, pfb, pe, pl, kds, ucb⟩, rc, ev, l⟩
  unfold exynos_plane_helper_disable_plane mutex_lock at hcall
  cases pl
  · cases pfb
    · cases fb <;>
        simp [bind, Except.bind, pure, Except.pure, log_call] at hcall <;>
        exact ⟨rfl, rfl, hcall.1.symm, hcall.2.symm⟩
    · simp [bind, Except.bind, throw, throwThe, MonadExceptOf.throw] at hcall
  · simp [bind, Except.bind] at hcall

/-- Every state reached with the callback under the lock is reached when the
callback may run at any time. -/
theorem reachable_anytime_of_reachable (s : drm_state) (hs : Reachable s) :
    ReachableAnytime s := by
  induction hs with
  | init s hfb hp hl => exact ReachableAnytime.init s hfb hp hl
  | update_plane env s s' crtc fb cx cy cw ch sx sy sw sh ret _ hcall ih =>
    exact ReachableAnytime.update_plane env s s' crtc fb cx cy cw ch sx sy sw sh ret ih hcall
  | commit_cb env s cookie _ _ ih => exact ReachableAnytime.commit_cb env s cookie ih
  | finish_update env s pipe _ hlock ih =>
    exact ReachableAnytime.finish_update env s pipe ih hlock
  | disable_plane env s s' ret _ hcall ih =>
    exact ReachableAnytime.disable_plane env s s' ret ih hcall
  | freeze_plane env s s' ret _ hcall ih =>
    exact ReachableAnytime.freeze_plane env s s' ret ih hcall
  | thaw_plane s s' crtc _ hcall ih => exact ReachableAnytime.thaw_plane s s' crtc ih hcall

/-- C8. For a 32-bit `start`, a 32-bit unsigned `length` and a non-negative
32-bit `extent`, the value returned by `exynos_plane_get_size` lies between 0
and `extent` and does not exceed `length`. -/
theorem get_size_bounds (start : Int) (length : Nat) (extent : Int)
    (hstart : -2147483648 ≤ start ∧ start < 2147483648) (hlength : length < 4294967296)
    (hextent : 0 ≤ extent ∧ extent < 2147483648) :
    0 ≤ exynos_plane_get_size start length (to_u32 extent) ∧
    exynos_plane_get_size start length (to_u32 extent) ≤ extent ∧
    exynos_plane_get_size start length (to_u32 extent) ≤ (length : Int) := by
  unfold exynos_plane_get_size to_s32 to_u32
  simp only []
  split_ifs <;> omega

/-- C8 for a length close to `2^32` starting left of the screen. -/
theorem get_size_bounds_witness :
    ((-2147483648 : Int) ≤ -10 ∧ (-10 : Int) < 2147483648) ∧
    (4294967295 : Nat) < 4294967296 ∧
    ((0 : Int) ≤ 1920 ∧ (1920 : Int) < 2147483648) ∧
    0 ≤ exynos_plane_get_size (-10) 4294967295 (to_u32 1920) ∧
    exynos_plane_get_size (-10) 4294967295 (to_u32 1920) ≤ 1920 ∧
    exynos_plane_get_size (-10) 4294967295 (to_u32 1920) ≤ ((4294967295 : Nat) : Int) :=
  ⟨by decide, by decide, by decide,
    get_size_bounds (-10) 4294967295 1920 (by decide) (by decide) (by decide)⟩

/-- C9. When `start`, `start + length` and the non-negative `extent` fit in a
signed 32-bit integer, `exynos_plane_get_size` returns the visible length of
the specification: `min(end, extent)` or `0` for `start <= 0`,
`min(extent - start, length)` for `0 < start <= extent`, and `0` beyond. -/
theorem get_size_refines_spec (start : Int) (length : Nat) (extent : Int)
    (hstart : -2147483648 ≤ start ∧ start < 2147483648) (hlength : length < 4294967296)
    (hextent : 0 ≤ extent ∧ extent < 2147483648)
    (hend : -2147483648 ≤ start + length ∧ start + length < 2147483648) :
    exynos_plane_get_size start length (to_u32 extent) =
      visible_length_spec start length extent := by
  unfold exynos_plane_get_size visible_length_spec to_s32 to_u32
  simp only []
  split_ifs <;> omega

/-- C9 for a rectangle straddling the right edge of a 1920 wide screen. -/
theorem get_size_refines_spec_witness :
    ((-2147483648 : Int) ≤ 1900 ∧ (1900 : Int) < 2147483648) ∧
    (50 : Nat) < 4294967296 ∧
    ((0 : Int) ≤ 1920 ∧ (1920 : Int) < 2147483648) ∧
    ((-2147483648 : Int) ≤ 1900 + ((50 : Nat) : Int) ∧
      (1900 : Int) + ((50 : Nat) : Int) < 2147483648) ∧
    exynos_plane_get_size 1900 50 (to_u32 1920) = visible_length_spec 1900 ((50 : Nat) : Int) 1920 ∧
    visible_length_spec 1900 50 1920 = 20 :=
  ⟨by decide, by decide, by decide, by decide,
    get_size_refines_spec 1900 50 1920 (by decide) (by decide) (by decide) (by decide),
    by decide⟩

/-- C10. Applying `exynos_sanitize_plane_coords` to its own output, against the
same screen, returns that output: the whole plane record, and so each of the
eight geometry fields, is unchanged by the second pass. -/
theorem sanitize_idempotent (p : exynos_drm_plane) (crtc : drm_crtc) :
    exynos_sanitize_plane_coords (exynos_sanitize_plane_coords p crtc) crtc
      = exynos_sanitize_plane_coords p crtc := by
  have hw := get_size_restart p.crtc_x p.crtc_w (to_u32 crtc.hdisplay) (to_u32_lt _)
  have hh := get_size_restart p.crtc_y p.crtc_h (to_u32 crtc.vdisplay) (to_u32_lt _)
  rw [sanitize_eq (exynos_sanitize_plane_coords p crtc) crtc, sanitize_eq p crtc]
  simp only [hw, hh]
  generalize to_u32 (exynos_plane_get_size p.crtc_x p.crtc_w (to_u32 crtc.hdisplay)) = u at *
  generalize to_u32 (exynos_plane_get_size p.crtc_y p.crtc_h (to_u32 crtc.vdisplay)) = v at *
  have e1 : ¬ ((if p.crtc_x < 0 then (0 : Int) else p.crtc_x) < 0) := by
    split_ifs <;> omega
  have e2 : ¬ ((if p.crtc_y < 0 then (0 : Int) else p.crtc_y) < 0) := by
    split_ifs <;> omega
  simp [e1, e2]

/-! ### What the failure paths leave behind -/

/-- A failing `exynos_plane_update` that got its record has taken one reference
on the target and not given it back. -/
theorem exynos_plane_update_failure_refcount (env : kernel_env) (s s1 : drm_state)
    (crtc : drm_crtc) (fb : Nat) (cb : drm_state → kds_callback_cookie → drm_state)
    (ret : Int) (hcall : exynos_plane_update env s crtc fb cb = .ok (ret, s1))
    (hret : ret ≠ 0) :
    s1.refcount fb = if env.kzalloc_ok then s.refcount fb + 1 else s.refcount fb := by
  unfold exynos_plane_update at hcall
  simp only [] at hcall
  split_ifs at hcall with h1 h2 h3 h4 h5 h6 <;>
    simp only [Except.ok.injEq, Prod.mk.injEq, reduceCtorEq] at hcall <;>
    obtain ⟨e1, e2⟩ := hcall <;> subst e2 <;>
    first
      | exact absurd e1.symm hret
      | (simp only [log_call, warn_on_unlocked, drm_framebuffer_reference]
         split_ifs <;> simp_all)

/-- Every failing update request returns with the update lock held. -/
theorem failing_update_returns_locked (env : kernel_env) (s s' : drm_state)
    (crtc : drm_crtc) (fb : Nat) (crtc_x crtc_y : Int)
    (crtc_w crtc_h src_x src_y src_w src_h : Nat) (ret : Int)
    (hcall : exynos_plane_helper_update_plane env s crtc fb crtc_x crtc_y crtc_w crtc_h
      src_x src_y src_w src_h = .ok (ret, s'))
    (hret : ret ≠ 0) :
    s.plane.pending_lock = false ∧ s'.plane.pending_lock = true := by
  obtain ⟨hl, s1, h1, h2⟩ := update_plane_ok_inv _ _ _ _ _ _ _ _ _ _ _ _ _ _ hcall
  obtain ⟨-, -, f3⟩ := exynos_plane_update_failure _ _ _ _ _ _ _ h1 hret
  rw [if_pos hret] at h2
  subst h2
  rw [(requested_fields s crtc crtc_x crtc_y crtc_w crtc_h src_x src_y src_w src_h).2.2.1]
    at f3
  exact ⟨hl, by simpa [exynos_plane_copy_state] using f3⟩

/-- Every update request that fails after the record was allocated returns with
one reference more on the target buffer. -/
theorem failing_update_holds_reference (env : kernel_env) (s s' : drm_state)
    (crtc : drm_crtc) (fb : Nat) (crtc_x crtc_y : Int)
    (crtc_w crtc_h src_x src_y src_w src_h : Nat) (ret : Int)
    (hcall : exynos_plane_helper_update_plane env s crtc fb crtc_x crtc_y crtc_w crtc_h
      src_x src_y src_w src_h = .ok (ret, s'))
    (hret : ret ≠ 0) (halloc : env.kzalloc_ok = true) :
    s'.refcount fb = s.refcount fb + 1 := by
  obtain ⟨-, s1, h1, h2⟩ := update_plane_ok_inv _ _ _ _ _ _ _ _ _ _ _ _ _ _ hcall
  have f := exynos_plane_update_failure_refcount _ _ _ _ _ _ _ h1 hret
  rw [if_pos hret] at h2
  subst h2
  rw [if_pos halloc,
    (requested_fields s crtc crtc_x crtc_y crtc_w crtc_h src_x src_y src_w src_h).2.2.2.2.1]
    at f
  exact f

/-! ### The geometry stored by a request -/

/-- The commit callback leaves the geometry alone. -/
theorem commit_cb_geometry (env : kernel_env) (s : drm_state) (cookie : kds_callback_cookie) :
    geometry (exynos_plane_helper_commit_cb env s cookie).plane = geometry s.plane := by
  by_cases h : s.plane.fb = some cookie.fb
  · rw [commit_cb_same env s cookie h]
    simp [log_call, finish_update_plane, geometry]
  · rw [commit_cb_other env s cookie h]
    simp [geometry]

/-- The body of an update request leaves the geometry alone, whatever it returns. -/
theorem exynos_plane_update_geometry (env : kernel_env) (s s1 : drm_state)
    (crtc : drm_crtc) (fb : Nat) (ret : Int)
    (hcall : exynos_plane_update env s crtc fb (exynos_plane_helper_commit_cb env)
      = .ok (ret, s1)) :
    geometry s1.plane = geometry s.plane := by
  have hpre : geometry (drm_framebuffer_reference (log_call (warn_on_unlocked s) .kzalloc)
      fb).plane = geometry s.plane := by
    simp only [log_call, warn_on_unlocked, drm_framebuffer_reference]
    split_ifs <;> rfl
  unfold exynos_plane_update at hcall
  simp only [] at hcall
  split_ifs at hcall <;>
    simp only [Except.ok.injEq, Prod.mk.injEq, reduceCtorEq] at hcall <;>
    obtain ⟨-, h2⟩ := hcall <;> subst h2 <;>
    first
      | (rw [commit_cb_geometry]; exact hpre)
      | (simp only [log_call, warn_on_unlocked, drm_framebuffer_reference]
         split_ifs <;> rfl)

/-- The geometry handed to the body is the clipped stored request. -/
theorem requested_geometry (s : drm_state) (crtc : drm_crtc) (crtc_x crtc_y : Int)
    (crtc_w crtc_h src_x src_y src_w src_h : Nat) :
    geometry (requested s crtc crtc_x crtc_y crtc_w crtc_h src_x src_y src_w src_h).plane =
      geometry (exynos_sanitize_plane_coords
        (store_request s.plane crtc_x crtc_y crtc_w crtc_h src_x src_y src_w src_h) crtc) := by
  simp [requested, store_request, sanitize_eq, geometry]

/-- C11. After every successful `exynos_plane_helper_update_plane` the geometry
of the plane is `exynos_sanitize_plane_coords`, against the display of the
request, of the requested rectangles with each source coordinate shifted right
by 16. On a 1920x1080 display the request for destination (-10, 0, 50, 20) and
source (0, 0, 50 << 16, 20 << 16) is clipped to destination (0, 0, 40, 20) and
source (10, 0, 40, 20). -/
theorem update_plane_stores_clipped (env : kernel_env) (s s' : drm_state)
    (crtc : drm_crtc) (fb : Nat) (crtc_x crtc_y : Int)
    (crtc_w crtc_h src_x src_y src_w src_h : Nat) (p : exynos_drm_plane) (id : Int)
    (hcall : exynos_plane_helper_update_plane env s crtc fb crtc_x crtc_y crtc_w crtc_h
      src_x src_y src_w src_h = .ok (0, s')) :
    geometry s'.plane =
      geometry (exynos_sanitize_plane_coords
        (store_request s.plane crtc_x crtc_y crtc_w crtc_h src_x src_y src_w src_h) crtc) ∧
    geometry (exynos_sanitize_plane_coords
        (store_request p (-10) 0 50 20 0 0 3276800 1310720) ⟨id, 1920, 1080⟩) =
      (0, 0, 40, 20, 10, 0, 40, 20) := by
  obtain ⟨-, s1, h1, h2⟩ := update_plane_ok_inv _ _ _ _ _ _ _ _ _ _ _ _ _ _ hcall
  simp only [ne_eq, not_true_eq_false, if_false] at h2
  subst h2
  refine ⟨(exynos_plane_update_geometry _ _ _ _ _ _ h1).trans
    (requested_geometry _ _ _ _ _ _ _ _ _ _), ?_⟩
  rw [sanitize_eq]
  simp only [store_request, geometry, Prod.mk.injEq]
  decide

/-- C11 on the request of the scenario, made on a plane showing buffer 3 for
buffer 7: the call succeeds and the clipped rectangles are stored. -/
theorem update_plane_stores_clipped_witness :
    exynos_plane_helper_update_plane env_no_fence (idle_state (some 3)) crtc_1080p 7
        (-10) 0 50 20 0 0 3276800 1310720 = .ok (0, clipped_request_state) ∧
    geometry clipped_request_state.plane = (0, 0, 40, 20, 10, 0, 40, 20) ∧
    geometry (exynos_sanitize_plane_coords
        (store_request (idle_plane (some 3)) (-10) 0 50 20 0 0 3276800 1310720) crtc_1080p) =
      (0, 0, 40, 20, 10, 0, 40, 20) :=
  ⟨by rfl, by rfl, (update_plane_stores_clipped env_no_fence (idle_state (some 3))
    clipped_request_state crtc_1080p 7 (-10) 0 50 20 0 0 3276800 1310720
    (idle_plane (some 3)) 0 (by rfl)).2⟩

/-! ### The clipped rectangle as an intersection with the screen -/

/-- One axis of the clipper: start clamped to zero, length of the intersection. -/
theorem axis_intersection (x : Int) (w : Nat) (E : Int)
    (hx : -2147483648 ≤ x ∧ x < 2147483648) (hxw : x + w < 2147483648)
    (hE : 0 ≤ E ∧ E < 2147483648) :
    (if x < 0 then 0 else x) = max x 0 ∧
    (max x 0 < min (x + w) E →
      ((to_u32 (exynos_plane_get_size x w (to_u32 E)) : Nat) : Int) = min (x + w) E - max x 0 ∧
        (if x < 0 then 0 else x) + (to_u32 (exynos_plane_get_size x w (to_u32 E)) : Nat) ≤ E) ∧
    (min (x + w) E ≤ max x 0 → to_u32 (exynos_plane_get_size x w (to_u32 E)) = 0) := by
  unfold exynos_plane_get_size to_s32 to_u32
  simp only []
  refine ⟨?_, ?_, ?_⟩
  · split_ifs <;> omega
  · intro h
    constructor <;> split_ifs <;> omega
  · intro h
    split_ifs <;> omega

/-- C12. On each axis, for a 32-bit start `x`, a length `w` and a screen extent
`E` with `x + w` and `E` in the signed 32-bit range, `exynos_sanitize_plane_coords`
computes the intersection of `[x, x + w)` with `[0, E)`: the resulting start
is `max x 0`; when the intersection is not empty the resulting length is
`min (x + w) E - max x 0`, so the clipped interval ends at or before `E`; when it
is empty the resulting length is `0`. -/
theorem sanitize_is_intersection (p : exynos_drm_plane) (crtc : drm_crtc)
    (hx : -2147483648 ≤ p.crtc_x ∧ p.crtc_x < 2147483648)
    (hy : -2147483648 ≤ p.crtc_y ∧ p.crtc_y < 2147483648)
    (hxw : p.crtc_x + p.crtc_w < 2147483648) (hyh : p.crtc_y + p.crtc_h < 2147483648)
    (hE : 0 ≤ crtc.hdisplay ∧ crtc.hdisplay < 2147483648)
    (hF : 0 ≤ crtc.vdisplay ∧ crtc.vdisplay < 2147483648) :
    ((exynos_sanitize_plane_coords p crtc).crtc_x = max p.crtc_x 0 ∧
      (max p.crtc_x 0 < min (p.crtc_x + p.crtc_w) crtc.hdisplay →
        ((exynos_sanitize_plane_coords p crtc).crtc_w : Int) =
            min (p.crtc_x + p.crtc_w) crtc.hdisplay - max p.crtc_x 0 ∧
          (exynos_sanitize_plane_coords p crtc).crtc_x +
            (exynos_sanitize_plane_coords p crtc).crtc_w ≤ crtc.hdisplay) ∧
      (min (p.crtc_x + p.crtc_w) crtc.hdisplay ≤ max p.crtc_x 0 →
        (exynos_sanitize_plane_coords p crtc).crtc_w = 0)) ∧
    ((exynos_sanitize_plane_coords p crtc).crtc_y = max p.crtc_y 0 ∧
      (max p.crtc_y 0 < min (p.crtc_y + p.crtc_h) crtc.vdisplay →
        ((exynos_sanitize_plane_coords p crtc).crtc_h : Int) =
            min (p.crtc_y + p.crtc_h) crtc.vdisplay - max p.crtc_y 0 ∧
          (exynos_sanitize_plane_coords p crtc).crtc_y +
            (exynos_sanitize_plane_coords p crtc).crtc_h ≤ crtc.vdisplay) ∧
      (min (p.crtc_y + p.crtc_h) crtc.vdisplay ≤ max p.crtc_y 0 →
        (exynos_sanitize_plane_coords p crtc).crtc_h = 0)) := by
  rw [sanitize_eq]
  simp only []
  have ax := axis_intersection p.crtc_x p.crtc_w crtc.hdisplay hx hxw hE
  have ay := axis_intersection p.crtc_y p.crtc_h crtc.vdisplay hy hyh hF
  exact ⟨ax, ay⟩

/-- C12 on the destination (-10, 0, 50, 20) against the 1920x1080 display. -/
theorem sanitize_is_intersection_witness :
    ((-2147483648 : Int) ≤ -10 ∧ (-10 : Int) < 2147483648) ∧
    ((-10 : Int) + ((50 : Nat) : Int) < 2147483648) ∧
    ((0 : Int) ≤ 1920 ∧ (1920 : Int) < 2147483648) ∧
    (exynos_sanitize_plane_coords
      (store_request (idle_plane none) (-10) 0 50 20 0 0 3276800 1310720) crtc_1080p).crtc_x
      = max (-10) 0 ∧
    (((exynos_sanitize_plane_coords
      (store_request (idle_plane none) (-10) 0 50 20 0 0 3276800 1310720) crtc_1080p).crtc_w
        : Nat) : Int) = min ((-10) + ((50 : Nat) : Int)) 1920 - max (-10) 0 :=
  have h := sanitize_is_intersection
    (store_request (idle_plane none) (-10) 0 50 20 0 0 3276800 1310720) crtc_1080p
    (by decide) (by decide) (by decide) (by decide) (by decide) (by decide)
  ⟨by decide, by decide, by decide, h.1.1, (h.1.2.1 (by decide)).1⟩

/-! ### Consistency of the geometry -/

/-- The consistency predicate only reads the geometry. -/
theorem crop_of_geometry (p q : exynos_drm_plane) (h : geometry p = geometry q)
    (hq : crop_within_destination q) : crop_within_destination p := by
  simp only [geometry, Prod.mk.injEq] at h
  obtain ⟨-, -, h3, h4, -, -, h7, h8⟩ := h
  unfold crop_within_destination at hq ⊢
  rw [h3, h4, h7, h8]
  exact hq

/-- Clipping always leaves the crop within the destination. -/
theorem sanitize_crop (p : exynos_drm_plane) (crtc : drm_crtc) :
    crop_within_destination (exynos_sanitize_plane_coords p crtc) := by
  rw [sanitize_eq]
  exact ⟨Nat.min_le_right _ _, Nat.min_le_right _ _⟩

/-- The geometry after any returning update request: the clipped request on
success, the geometry before the call on failure. -/
theorem update_plane_geometry (env : kernel_env) (s s' : drm_state)
    (crtc : drm_crtc) (fb : Nat) (crtc_x crtc_y : Int)
    (crtc_w crtc_h src_x src_y src_w src_h : Nat) (ret : Int)
    (hcall : exynos_plane_helper_update_plane env s crtc fb crtc_x crtc_y crtc_w crtc_h
      src_x src_y src_w src_h = .ok (ret, s')) :
    geometry s'.plane =
      if ret ≠ 0 then geometry s.plane
      else geometry (exynos_sanitize_plane_coords
        (store_request s.plane crtc_x crtc_y crtc_w crtc_h src_x src_y src_w src_h) crtc) := by
  obtain ⟨-, s1, h1, h2⟩ := update_plane_ok_inv _ _ _ _ _ _ _ _ _ _ _ _ _ _ hcall
  subst h2
  split_ifs with h0
  · rfl
  · exact (exynos_plane_update_geometry _ _ _ _ _ _ h1).trans
      (requested_geometry _ _ _ _ _ _ _ _ _ _)

/-- C13. The predicate `src_w <= crtc_w and src_h <= crtc_h` holds after every
`exynos_sanitize_plane_coords`, and a plane on which it holds keeps it through
every returning `exynos_plane_helper_update_plane`, succeeding or failing,
through `exynos_plane_helper_finish_update`, and through every returning
disable, freeze and thaw. -/
theorem crop_within_destination_kept (env : kernel_env) (s : drm_state)
    (p : exynos_drm_plane) (crtc : drm_crtc) (pipe : Int)
    (hcrop : crop_within_destination s.plane) :
    crop_within_destination (exynos_sanitize_plane_coords p crtc) ∧
    (∀ (fb : Nat) (crtc_x crtc_y : Int) (crtc_w crtc_h src_x src_y src_w src_h : Nat)
        (ret : Int) (s' : drm_state),
      exynos_plane_helper_update_plane env s crtc fb crtc_x crtc_y crtc_w crtc_h
        src_x src_y src_w src_h = .ok (ret, s') → crop_within_destination s'.plane) ∧
    crop_within_destination (exynos_plane_helper_finish_update env s pipe).plane ∧
    (∀ (ret : Int) (s' : drm_state),
      exynos_plane_helper_disable_plane env s = .ok (ret, s') →
        crop_within_destination s'.plane) ∧
    (∀ (ret : Int) (s' : drm_state),
      exynos_plane_helper_freeze_plane env s = .ok (ret, s') →
        crop_within_destination s'.plane) ∧
    (∀ (s' : drm_state),
      exynos_plane_helper_thaw_plane s crtc = .ok s' →
        crop_within_destination s'.plane) := by
  refine ⟨sanitize_crop p crtc, ?_, ?_, ?_, ?_, ?_⟩
  · intro fb crtc_x crtc_y crtc_w crtc_h src_x src_y src_w src_h ret s' hcall
    have hg := update_plane_geometry _ _ _ _ _ _ _ _ _ _ _ _ _ _ hcall
    split_ifs at hg with h0
    · exact crop_of_geometry _ _ hg hcrop
    · exact crop_of_geometry _ _ hg (sanitize_crop _ _)
  · refine crop_of_geometry _ _ ?_ hcrop
    rw [finish_update_plane]
    rfl
  · intro ret s' hcall
    obtain ⟨-, -, -, h⟩ := disable_plane_ok_inv env s s' ret hcall
    refine crop_of_geometry _ _ ?_ hcrop
    rw [h, finish_update_plane]
    rfl
  · intro ret s' hcall
    obtain ⟨-, -, h⟩ := freeze_plane_ok_inv env s s' ret hcall
    refine crop_of_geometry _ _ ?_ hcrop
    rw [h]
    rfl
  · intro s' hcall
    obtain ⟨-, h⟩ := thaw_plane_ok_inv s s' crtc hcall
    refine crop_of_geometry _ _ ?_ hcrop
    rw [h]
    cases s.plane.fb <;> rfl

/-- C13 on the plane holding the clipped 40x20 request: the predicate holds, and
still holds after `exynos_plane_helper_finish_update`; and the clipper brings a
50x50 crop into a 10x10 destination. -/
theorem crop_within_destination_kept_witness :
    crop_within_destination clipped_request_state.plane ∧
    crop_within_destination
      (exynos_plane_helper_finish_update env_no_fence clipped_request_state 0).plane ∧
    crop_within_destination (exynos_sanitize_plane_coords
      (store_request (idle_plane none) 0 0 10 10 0 0 3276800 3276800) crtc_1080p) :=
  have hc : crop_within_destination clipped_request_state.plane :=
    ⟨Nat.le_refl _, Nat.le_refl _⟩
  have h := crop_within_destination_kept env_no_fence clipped_request_state
    (store_request (idle_plane none) 0 0 10 10 0 0 3276800 3276800) crtc_1080p 0 hc
  ⟨hc, h.2.2.1, h.1⟩

/-! ### Thaw -/

/-- With the lock free, thaw returns: unchanged when no buffer is retained,
otherwise with the buffer pushed, referenced and pending under the lock. -/
theorem thaw_plane_unlocked (s : drm_state) (crtc : drm_crtc)
    (hlock : s.plane.pending_lock = false) :
    exynos_plane_helper_thaw_plane s crtc = .ok
      (match s.plane.fb with
        | some fb =>
          { plane := { s.plane with pending_lock := true, pending_fb := some fb }
            refcount := Function.update s.refcount fb (s.refcount fb + 1)
            event_list := s.event_list
            calls := s.calls ++ [.commit_plane crtc.id fb, .drm_framebuffer_reference fb] }
        | none => s) := by
  rcases s with ⟨⟨c, ctx, x, y, w, h, sx, sy, sw, sh, fb, pfb, pe, pl, kds, ucb⟩, rc, ev, l⟩
  simp only at hlock
  subst hlock
  unfold exynos_plane_helper_thaw_plane mutex_lock
  cases fb <;>
    simp [bind, Except.bind, pure, Except.pure, log_call, mutex_unlock,
      drm_framebuffer_reference]

/-- C14. On a plane with the lock free, `exynos_plane_helper_thaw_plane` returns.
With no retained buffer the state is exactly the one before the call: no
hardware call, no field or reference count changed, lock free. With a retained
buffer `A` the only calls made are one `commit_plane` with `A` followed by one
acquire of `A`; the count of `A` is one higher and no other count moved,
`pending_fb` is `A`, `fb` is still `A`, and the lock is still held. -/
theorem thaw_plane_effect (s : drm_state) (crtc : drm_crtc)
    (hlock : s.plane.pending_lock = false) :
    (s.plane.fb = none → exynos_plane_helper_thaw_plane s crtc = .ok s) ∧
    (∀ A, s.plane.fb = some A →
      ∃ s', exynos_plane_helper_thaw_plane s crtc = .ok s' ∧
        s'.calls = s.calls ++ [.commit_plane crtc.id A, .drm_framebuffer_reference A] ∧
        s'.refcount A = s.refcount A + 1 ∧
        (∀ c, c ≠ A → s'.refcount c = s.refcount c) ∧
        s'.plane.pending_fb = some A ∧ s'.plane.fb = some A ∧
        s'.plane.pending_lock = true) := by
  have h := thaw_plane_unlocked s crtc hlock
  constructor
  · intro hf
    rw [h, hf]
  · intro A hf
    rw [hf] at h
    refine ⟨_, h, rfl, by simp, fun c hc => by simp [Function.update, hc], rfl, hf, rfl⟩

/-- C14 on the plane at rest showing buffer 3, and on the plane showing nothing. -/
theorem thaw_plane_effect_witness :
    (idle_state (some 3)).plane.pending_lock = false ∧
    (idle_state none).plane.pending_lock = false ∧
    exynos_plane_helper_thaw_plane (idle_state none) crtc_1080p = .ok (idle_state none) ∧
    ∃ s', exynos_plane_helper_thaw_plane (idle_state (some 3)) crtc_1080p = .ok s' ∧
      s'.calls = [.commit_plane 0 3, .drm_framebuffer_reference 3] ∧
      s'.refcount 3 = 2 ∧ s'.plane.pending_fb = some 3 ∧ s'.plane.pending_lock = true :=
  have h0 := thaw_plane_effect (idle_state none) crtc_1080p rfl
  have h3 := thaw_plane_effect (idle_state (some 3)) crtc_1080p rfl
  ⟨rfl, rfl, h0.1 rfl, (h3.2 3 rfl).elim fun s' hs =>
    ⟨s', hs.1, hs.2.1, hs.2.2.1, hs.2.2.2.2.1, hs.2.2.2.2.2.2⟩⟩

/-! ### Disable -/

/-- The calls logged by `exynos_plane_helper_finish_update`, in order. -/
theorem finish_update_calls (env : kernel_env) (s : drm_state) (pipe : Int) :
    (exynos_plane_helper_finish_update env s pipe).calls =
      s.calls ++ (if s.plane.pending_lock then [] else [ext_call.WARN_ON]) ++
        (if env.config_kds && s.plane.kds then [ext_call.kds_resource_set_release] else []) ++
        (if env.config_kds && s.plane.kds_cb_user_cb then [ext_call.kds_callback_term]
          else []) ++
        (if pipe ≥ 0 ∧ s.plane.pending_event.isSome then [ext_call.wake_up_interruptible]
          else []) ++
        (match s.plane.fb with
         | some a => [ext_call.drm_framebuffer_unreference a]
         | none => []) := by
  unfold exynos_plane_helper_finish_update exynos_drm_crtc_send_event
  cases hc : env.config_kds <;> cases hk : s.plane.kds <;>
    cases hu : s.plane.kds_cb_user_cb <;> cases he : s.plane.pending_event <;>
    cases hf : s.plane.fb <;> cases hl : s.plane.pending_lock <;>
    by_cases hp : pipe ≥ 0 <;>
    simp [*, log_call, mutex_unlock, warn_on_unlocked, drm_framebuffer_unreference]

/-- With the lock free and nothing pending, disable returns 0 and is one
`exynos_plane_helper_finish_update` under the lock, after the hardware call
when a buffer is shown. -/
theorem disable_plane_unlocked (env : kernel_env) (s : drm_state)
    (hlock : s.plane.pending_lock = false) (hpending : s.plane.pending_fb = none) :
    exynos_plane_helper_disable_plane env s = .ok (0,
      exynos_plane_helper_finish_update env
        { s with
          plane := { s.plane with pending_lock := true }
          calls := if s.plane.fb.isSome then s.calls ++ [.disable_plane] else s.calls }
        (match s.plane.crtc with
         | some c => c.id
         | none => -1)) := by
  rcases s with ⟨⟨c, ctx, x, y, w, h, sx, sy, sw, sh, fb, pfb, pe, pl, kds, ucb⟩, rc, ev, l⟩
  simp only at hlock hpending
  subst hlock hpending
  unfold exynos_plane_helper_disable_plane mutex_lock
  cases fb <;> simp [bind, Except.bind, pure, Except.pure, log_call]

/-- C15. On a plane with the lock free and nothing pending,
`exynos_plane_helper_disable_plane` returns after exactly one
`exynos_plane_helper_finish_update`, run on the locked plane; the hardware
`disable_plane` was called once when a buffer was shown and not at all
otherwise. On return no buffer is current, none is pending, the lock is free,
and the buffer shown before holds exactly one reference less, all other counts
being unchanged. -/
theorem disable_plane_effect (env : kernel_env) (s : drm_state)
    (hlock : s.plane.pending_lock = false) (hpending : s.plane.pending_fb = none) :
    ∃ s', exynos_plane_helper_disable_plane env s = .ok (0, s') ∧
      s' = exynos_plane_helper_finish_update env
        { s with
          plane := { s.plane with pending_lock := true }
          calls := if s.plane.fb.isSome then s.calls ++ [.disable_plane] else s.calls }
        (match s.plane.crtc with
         | some c => c.id
         | none => -1) ∧
      s'.calls.count .disable_plane =
        s.calls.count .disable_plane + (if s.plane.fb.isSome then 1 else 0) ∧
      s'.plane.fb = none ∧ s'.plane.pending_fb = none ∧ s'.plane.pending_lock = false ∧
      (∀ A, s.plane.fb = some A →
        s'.refcount A = s.refcount A - 1 ∧ ∀ c, c ≠ A → s'.refcount c = s.refcount c) ∧
      (s.plane.fb = none → s'.refcount = s.refcount) ∧
      ref_calls s'.calls = ref_calls s.calls ++
        (match s.plane.fb with
         | some A => [ext_call.drm_framebuffer_unreference A]
         | none => []) := by
  refine ⟨_, disable_plane_unlocked env s hlock hpending, rfl, ?_, ?_, ?_, ?_, ?_, ?_, ?_⟩
  · rw [finish_update_calls]
    cases hf : s.plane.fb <;> simp [List.count_append] <;> split_ifs <;> simp
  · rw [finish_update_plane]; exact hpending
  · rw [finish_update_plane]
  · rw [finish_update_plane]
  · intro A hA
    rw [finish_update_refcount]
    simp only [hA]
    exact ⟨by simp, fun c hc => by simp [Function.update, hc]⟩
  · intro h
    rw [finish_update_refcount]
    simp only [h]
  · rw [finish_update_ref_calls]
    cases hf : s.plane.fb <;> simp [ref_calls_append, ref_calls]

/-- C15 on the plane at rest showing buffer 3. -/
theorem disable_plane_effect_witness :
    (idle_state (some 3)).plane.pending_lock = false ∧
    (idle_state (some 3)).plane.pending_fb = none ∧
    ∃ s', exynos_plane_helper_disable_plane env_no_fence (idle_state (some 3)) = .ok (0, s') ∧
      s'.calls.count .disable_plane = 1 ∧
      s'.plane.fb = none ∧ s'.plane.pending_lock = false ∧ s'.refcount 3 = 0 :=
  ⟨rfl, rfl, (disable_plane_effect env_no_fence (idle_state (some 3)) rfl rfl).elim
    fun s' hs => ⟨s', hs.1, hs.2.2.1, hs.2.2.2.1, hs.2.2.2.2.2.1, (hs.2.2.2.2.2.2.1 3 rfl).1⟩⟩

/-! ### Events and status on the disable path -/

/-- The event queue after `exynos_plane_helper_finish_update`. -/
theorem finish_update_queue (env : kernel_env) (s : drm_state) (pipe : Int) :
    (exynos_plane_helper_finish_update env s pipe).event_list =
      if pipe ≥ 0 then
        match s.plane.pending_event with
        | some event => s.event_list ++ [stamped_event env event pipe]
        | none => s.event_list
      else s.event_list := by
  unfold exynos_plane_helper_finish_update exynos_drm_crtc_send_event
  cases hc : env.config_kds <;> cases hk : s.plane.kds <;>
    cases hu : s.plane.kds_cb_user_cb <;> cases he : s.plane.pending_event <;>
    cases hf : s.plane.fb <;> cases hl : s.plane.pending_lock <;>
    by_cases hp : pipe ≥ 0 <;>
    simp [*, log_call, mutex_unlock, warn_on_unlocked, drm_framebuffer_unreference,
      stamped_event]

/-- C16 as stated fails on a plane attached to a display pipe. The plane is at
rest (lock free, nothing pending), attached to pipe 0, with a completion
request pending: disable passes pipe 0 to `exynos_plane_helper_finish_update`,
the request is queued stamped with pipe 0, and the pending request is cleared. -/
theorem disable_plane_attached_sends_event :
    attached_state.plane.pending_lock = false ∧
    attached_state.plane.pending_fb = none ∧
    attached_state.plane.crtc = some crtc_1080p ∧
    attached_state.plane.pending_event = some flip_request ∧
    attached_state.event_list = [] ∧
    ∃ s', exynos_plane_helper_disable_plane env_no_fence attached_state = .ok (0, s') ∧
      s'.event_list = [stamped_event env_no_fence flip_request 0] ∧
      s'.plane.pending_event = none :=
  ⟨rfl, rfl, rfl, rfl, rfl, _, by rfl, by rfl, by rfl⟩

/-- C16, amended. On a plane with the lock free and nothing pending, disable
calls `exynos_plane_helper_finish_update` with the id of the display pipe the
plane is attached to, and with no pipe (`-1`) when it is attached to none. When
the plane is attached to no pipe, or the id is negative, or no completion
request is pending, no event is queued and the pending request is unchanged.
When it is attached to a pipe with a non-negative id and a request is pending,
that request is queued, stamped with the pipe id, and the pending request is
cleared. -/
theorem disable_plane_event (env : kernel_env) (s : drm_state)
    (hlock : s.plane.pending_lock = false) (hpending : s.plane.pending_fb = none) :
    ∃ s', exynos_plane_helper_disable_plane env s = .ok (0, s') ∧
      s' = exynos_plane_helper_finish_update env
        { s with
          plane := { s.plane with pending_lock := true }
          calls := if s.plane.fb.isSome then s.calls ++ [.disable_plane] else s.calls }
        (match s.plane.crtc with
         | some c => c.id
         | none => -1) ∧
      ((s.plane.crtc = none ∨ (∃ c, s.plane.crtc = some c ∧ c.id < 0) ∨
          s.plane.pending_event = none) →
        s'.event_list = s.event_list ∧ s'.plane.pending_event = s.plane.pending_event) ∧
      (∀ c event, s.plane.crtc = some c → 0 ≤ c.id → s.plane.pending_event = some event →
        s'.event_list = s.event_list ++ [stamped_event env event c.id] ∧
        s'.plane.pending_event = none) := by
  refine ⟨_, disable_plane_unlocked env s hlock hpending, rfl, ?_, ?_⟩
  · rw [finish_update_queue, finish_update_plane]
    rintro (h | ⟨c, h, hc⟩ | h)
    · simp [h]
    · have hn : ¬ c.id ≥ 0 := by omega
      simp [h, hn]
    · simp only [h]
      split_ifs <;> exact ⟨rfl, rfl⟩
  · intro c event hc hid hev
    rw [finish_update_queue, finish_update_plane]
    simp [hc, hid, hev]

/-- C16, amended, on the attached plane with a request pending, and on the
detached plane at rest. -/
theorem disable_plane_event_witness :
    attached_state.plane.pending_lock = false ∧
    attached_state.plane.pending_fb = none ∧
    (∃ s', exynos_plane_helper_disable_plane env_no_fence attached_state = .ok (0, s') ∧
      s'.event_list = [stamped_event env_no_fence flip_request 0] ∧
      s'.plane.pending_event = none) :=
  ⟨rfl, rfl, (disable_plane_event env_no_fence attached_state rfl rfl).elim fun s' hs =>
    ⟨s', hs.1, (hs.2.2.2 crtc_1080p flip_request rfl (by decide) rfl).1,
      (hs.2.2.2 crtc_1080p flip_request rfl (by decide) rfl).2⟩⟩

/-- C17, evaluated at a failing hardware call. The hardware `disable_plane`
reports `-EIO` on a plane showing buffer 3: `exynos_plane_helper_freeze_plane`
returns `-EIO`, but `exynos_plane_helper_disable_plane`, which logs the same
hardware call, returns 0. -/
theorem disable_plane_drops_status :
    env_disable_fails.disable_plane_ret = -5 ∧
    (idle_state (some 3)).plane.fb = some 3 ∧
    (∃ s', exynos_plane_helper_freeze_plane env_disable_fails (idle_state (some 3))
        = .ok (-5, s') ∧ s'.calls = [.disable_plane]) ∧
    (∃ s', exynos_plane_helper_disable_plane env_disable_fails (idle_state (some 3))
        = .ok (0, s') ∧
      s'.calls = [.disable_plane, .drm_framebuffer_unreference 3]) :=
  ⟨rfl, rfl, ⟨_, by rfl, by rfl⟩, ⟨_, by rfl, by rfl⟩⟩

/-- Every returning disable returns 0, whatever the hardware reported, and
every returning freeze returns what the hardware reported. -/
theorem disable_and_freeze_status (env : kernel_env) (s s' : drm_state) (ret : Int) :
    (exynos_plane_helper_disable_plane env s = .ok (ret, s') → ret = 0) ∧
    (exynos_plane_helper_freeze_plane env s = .ok (ret, s') →
      ret = env.disable_plane_ret) :=
  ⟨fun h => (disable_plane_ok_inv env s s' ret h).2.2.1,
    fun h => (freeze_plane_ok_inv env s s' ret h).2.1⟩

/-! ### The commit callback -/

theorem commit_calls_append (l m : List ext_call) :
    commit_calls (l ++ m) = commit_calls l ++ commit_calls m := by
  simp [commit_calls, List.filter_append]

/-- No `commit_plane` is logged by `exynos_plane_helper_finish_update`. -/
theorem finish_update_commit_calls (env : kernel_env) (s : drm_state) (pipe : Int) :
    commit_calls (exynos_plane_helper_finish_update env s pipe).calls =
      commit_calls s.calls := by
  rw [finish_update_calls]
  simp only [commit_calls_append]
  cases s.plane.fb <;> simp only [] <;> split_ifs <;> simp [commit_calls]

/-- C18. With the update lock held, `exynos_plane_helper_commit_cb` for the
record `(crtc, fb)` pushes `fb` to the hardware and makes it pending, then runs
`exynos_plane_helper_finish_update` when and only when `fb` is the current
buffer, and frees the record. Exactly one `commit_plane`, with `fb`, is logged.
When `fb` is not the current buffer (also when there is none) it returns with
the lock held, the current buffer unchanged, `fb` pending, and no reference
released or count changed. -/
theorem commit_cb_effect (env : kernel_env) (s : drm_state) (cookie : kds_callback_cookie)
    (hlock : s.plane.pending_lock = true) :
    (pushed s cookie).plane.pending_fb = some cookie.fb ∧
    exynos_plane_helper_commit_cb env s cookie =
      (if s.plane.fb = some cookie.fb then
        log_call (exynos_plane_helper_finish_update env (pushed s cookie) cookie.crtc.id)
          .kfree
      else log_call (pushed s cookie) .kfree) ∧
    commit_calls (exynos_plane_helper_commit_cb env s cookie).calls =
      commit_calls s.calls ++ [.commit_plane cookie.crtc.id cookie.fb] ∧
    (s.plane.fb ≠ some cookie.fb →
      (exynos_plane_helper_commit_cb env s cookie).plane.pending_lock = true ∧
      (exynos_plane_helper_commit_cb env s cookie).plane.fb = s.plane.fb ∧
      (exynos_plane_helper_commit_cb env s cookie).plane.pending_fb = some cookie.fb ∧
      ref_calls (exynos_plane_helper_commit_cb env s cookie).calls = ref_calls s.calls ∧
      (exynos_plane_helper_commit_cb env s cookie).refcount = s.refcount) := by
  have hw : warn_on_unlocked s = s := by simp [warn_on_unlocked, hlock]
  have heq : exynos_plane_helper_commit_cb env s cookie =
      (if s.plane.fb = some cookie.fb then
        log_call (exynos_plane_helper_finish_update env (pushed s cookie) cookie.crtc.id)
          .kfree
      else log_call (pushed s cookie) .kfree) := by
    split_ifs with h
    · rw [commit_cb_same env s cookie h, hw]
      rfl
    · rw [commit_cb_other env s cookie h, hw]
      simp [pushed, log_call]
  refine ⟨rfl, heq, ?_, ?_⟩
  · rw [heq]
    split_ifs with h
    · simp only [log_call, commit_calls_append, finish_update_commit_calls]
      simp [pushed, commit_calls, List.filter_append]
    · simp [log_call, commit_calls_append, pushed, commit_calls, List.filter_append]
  · intro h
    rw [heq, if_neg h]
    simp [log_call, pushed, hlock, ref_calls_append, ref_calls]

/-- C18 on the plane holding a pending request for buffer 7 while showing
buffer 3: the callback for buffer 9 leaves the lock held, and the callback for
buffer 3 finishes at once. -/
theorem commit_cb_effect_witness :
    clipped_request_state.plane.pending_lock = true ∧
    (exynos_plane_helper_commit_cb env_no_fence clipped_request_state
      ⟨crtc_1080p, 9⟩).plane.pending_fb = some 9 ∧
    (exynos_plane_helper_commit_cb env_no_fence clipped_request_state
      ⟨crtc_1080p, 9⟩).plane.pending_lock = true ∧
    commit_calls (exynos_plane_helper_commit_cb env_no_fence clipped_request_state
      ⟨crtc_1080p, 3⟩).calls = [.commit_plane 0 7, .commit_plane 0 3] :=
  have h9 := commit_cb_effect env_no_fence clipped_request_state ⟨crtc_1080p, 9⟩ rfl
  have h3 := commit_cb_effect env_no_fence clipped_request_state ⟨crtc_1080p, 3⟩ rfl
  ⟨rfl, (h9.2.2.2 (by decide)).2.2.1, (h9.2.2.2 (by decide)).1, h3.2.2.1⟩

/-! ### The source origin under a negative start -/

/-- C19 as stated fails for a rectangle lying entirely before the screen. The
destination starts at `x = -100` with width 50 on a 1920 wide screen: the
clipped width is 0, the destination start is clamped to 0, and the source origin
stays 0 instead of advancing to `0 - (-100) = 100`. -/
theorem sanitize_keeps_origin_when_hidden :
    (store_request (idle_plane none) (-100) 0 50 20 0 0 3276800 1310720).crtc_x < 0 ∧
    (exynos_sanitize_plane_coords
      (store_request (idle_plane none) (-100) 0 50 20 0 0 3276800 1310720)
      crtc_1080p).crtc_w = 0 ∧
    (exynos_sanitize_plane_coords
      (store_request (idle_plane none) (-100) 0 50 20 0 0 3276800 1310720)
      crtc_1080p).crtc_x = 0 ∧
    (exynos_sanitize_plane_coords
      (store_request (idle_plane none) (-100) 0 50 20 0 0 3276800 1310720)
      crtc_1080p).src_x = 0 ∧
    (((exynos_sanitize_plane_coords
      (store_request (idle_plane none) (-100) 0 50 20 0 0 3276800 1310720)
      crtc_1080p).src_x : Nat) : Int) ≠
      (((store_request (idle_plane none) (-100) 0 50 20 0 0 3276800 1310720).src_x : Nat) : Int)
        - (store_request (idle_plane none) (-100) 0 50 20 0 0 3276800 1310720).crtc_x := by
  refine ⟨by decide, by rfl, by rfl, by rfl, ?_⟩
  decide

/-- The unsigned subtraction `src -= start` for a negative 32-bit `start`. -/
theorem advance_origin (src : Nat) (start : Int)
    (hstart : -2147483648 ≤ start ∧ start < 0) (hsrc : src < 4294967296) :
    (((src + 4294967296 - to_u32 start) % 4294967296 : Nat) : Int) =
      ((src : Int) - start) % 4294967296 := by
  unfold to_u32
  omega

/-- C19, amended. For a 32-bit geometry whose destination start on an axis is
negative, `exynos_sanitize_plane_coords` clamps the destination start on that
axis to 0. When the clipped length on that axis is not zero it advances the
source origin by the same offset, `src' = src - start` in 32-bit unsigned
arithmetic; when the clipped length is zero it leaves the source origin as it
was. -/
theorem sanitize_negative_start (p : exynos_drm_plane) (crtc : drm_crtc)
    (hx : -2147483648 ≤ p.crtc_x) (hy : -2147483648 ≤ p.crtc_y)
    (hsx : p.src_x < 4294967296) (hsy : p.src_y < 4294967296) :
    (p.crtc_x < 0 →
      (exynos_sanitize_plane_coords p crtc).crtc_x = 0 ∧
      ((exynos_sanitize_plane_coords p crtc).crtc_w ≠ 0 →
        (((exynos_sanitize_plane_coords p crtc).src_x : Nat) : Int) =
          ((p.src_x : Int) - p.crtc_x) % 4294967296) ∧
      ((exynos_sanitize_plane_coords p crtc).crtc_w = 0 →
        (exynos_sanitize_plane_coords p crtc).src_x = p.src_x)) ∧
    (p.crtc_y < 0 →
      (exynos_sanitize_plane_coords p crtc).crtc_y = 0 ∧
      ((exynos_sanitize_plane_coords p crtc).crtc_h ≠ 0 →
        (((exynos_sanitize_plane_coords p crtc).src_y : Nat) : Int) =
          ((p.src_y : Int) - p.crtc_y) % 4294967296) ∧
      ((exynos_sanitize_plane_coords p crtc).crtc_h = 0 →
        (exynos_sanitize_plane_coords p crtc).src_y = p.src_y)) := by
  rw [sanitize_eq]
  simp only []
  constructor
  · intro h
    refine ⟨by simp [h], fun hw => ?_, fun hw => ?_⟩
    · rw [if_pos ⟨h, Nat.pos_of_ne_zero hw⟩]
      exact advance_origin p.src_x p.crtc_x ⟨hx, h⟩ hsx
    · rw [if_neg (by rw [hw]; simp)]
  · intro h
    refine ⟨by simp [h], fun hw => ?_, fun hw => ?_⟩
    · rw [if_pos ⟨h, hw⟩]
      exact advance_origin p.src_y p.crtc_y ⟨hy, h⟩ hsy
    · rw [if_neg (by rw [hw]; simp)]

/-- C19, amended, on the destination (-10, 0, 50, 20): the visible width is 40
and the source origin advances from 0 to 10. -/
theorem sanitize_negative_start_witness :
    (-2147483648 : Int) ≤
      (store_request (idle_plane none) (-10) 0 50 20 0 0 3276800 1310720).crtc_x ∧
    (store_request (idle_plane none) (-10) 0 50 20 0 0 3276800 1310720).src_x < 4294967296 ∧
    (exynos_sanitize_plane_coords
      (store_request (idle_plane none) (-10) 0 50 20 0 0 3276800 1310720)
      crtc_1080p).crtc_x = 0 ∧
    (((exynos_sanitize_plane_coords
      (store_request (idle_plane none) (-10) 0 50 20 0 0 3276800 1310720)
      crtc_1080p).src_x : Nat) : Int) = (((0 : Nat) : Int) - (-10)) % 4294967296 :=
  have h := sanitize_negative_start
    (store_request (idle_plane none) (-10) 0 50 20 0 0 3276800 1310720) crtc_1080p
    (by decide) (by decide) (by decide) (by decide)
  ⟨by decide, by decide, (h.1 (by decide)).1, (h.1 (by decide)).2.1 (by decide)⟩

/-! ### The completion event -/

/-- C20. With the update lock held, `exynos_plane_helper_finish_update(plane, pipe)`
queues exactly one completion event when `pipe >= 0` and a completion request
is pending, and none otherwise. The queued event is the pending request with
pipe id `pipe` and sequence 0, appended at the tail, and the pending request is
cleared. Otherwise the queue and the pending request are unchanged. No warning
is raised. -/
theorem finish_update_event (env : kernel_env) (s : drm_state) (pipe : Int)
    (hlock : s.plane.pending_lock = true) :
    ((exynos_plane_helper_finish_update env s pipe).event_list.length =
        s.event_list.length + 1 ↔ (pipe ≥ 0 ∧ s.plane.pending_event ≠ none)) ∧
    (∀ event, pipe ≥ 0 → s.plane.pending_event = some event →
      (exynos_plane_helper_finish_update env s pipe).event_list =
        s.event_list ++ [stamped_event env event pipe] ∧
      (stamped_event env event pipe).pipe = pipe ∧
      (stamped_event env event pipe).sequence = 0 ∧
      (stamped_event env event pipe).user_data = event.user_data ∧
      (exynos_plane_helper_finish_update env s pipe).plane.pending_event = none) ∧
    (¬ (pipe ≥ 0 ∧ s.plane.pending_event ≠ none) →
      (exynos_plane_helper_finish_update env s pipe).event_list = s.event_list ∧
      (exynos_plane_helper_finish_update env s pipe).plane.pending_event =
        s.plane.pending_event) ∧
    (exynos_plane_helper_finish_update env s pipe).calls.count .WARN_ON =
      s.calls.count .WARN_ON := by
  refine ⟨?_, ?_, ?_, finish_update_no_warn env s pipe hlock⟩
  · rw [finish_update_queue]
    by_cases hp : pipe ≥ 0 <;> cases he : s.plane.pending_event <;> simp [hp]
  · intro event hp he
    rw [finish_update_queue, finish_update_plane]
    simp [hp, he, stamped_event]
  · intro h
    rw [finish_update_queue, finish_update_plane]
    by_cases hp : pipe ≥ 0
    · have he : s.plane.pending_event = none := by
        by_contra hne
        exact h ⟨hp, hne⟩
      simp [hp, he]
    · simp [hp]

/-- C20 on the attached plane with a request pending, under the lock, for pipe 0
and for no pipe. -/
theorem finish_update_event_witness :
    ({ attached_state with
        plane := { attached_state.plane with pending_lock := true } } : drm_state
      ).plane.pending_lock = true ∧
    (exynos_plane_helper_finish_update env_no_fence
      { attached_state with plane := { attached_state.plane with pending_lock := true } }
      0).event_list = [stamped_event env_no_fence flip_request 0] ∧
    (exynos_plane_helper_finish_update env_no_fence
      { attached_state with plane := { attached_state.plane with pending_lock := true } }
      (-1)).event_list = [] :=
  have h0 := finish_update_event env_no_fence
    { attached_state with plane := { attached_state.plane with pending_lock := true } }
    0 rfl
  have h1 := finish_update_event env_no_fence
    { attached_state with plane := { attached_state.plane with pending_lock := true } }
    (-1) rfl
  ⟨rfl, (h0.2.1 flip_request (by decide) rfl).1, (h1.2.2.1 (by decide)).1⟩

end ExynosPlane
